import Mathlib

/-!
# The libsurvive Kalman tracker (`src/survive_kalman_tracker.c`)

A shallow embedding of the pose-tracking filter front end: the process-noise
matrix `model_q_fn`, the state-transition Jacobian special case
`model_predict_jac`, the three `integrate_*` entry points, `predict`,
`report_state` and `init`.

Conventions of the embedding.

* `FLT` is an arbitrary linearly ordered field `F` (the rationals and the reals
  are instances); the arithmetic is exact, so rounding, infinities and NaN are
  outside the model.  `fabs` is the absolute value.
* A C array of `FLT` is a `List F`; a read is `getD _ 0`, a write is `List.set`.
  A `CvMat` is the list of its entries.
* A function that writes through a pointer returns the new value of what it
  wrote.  The tracker entry points return the new tracker together with the
  list of calls they made to the Kalman kernel and to the downstream pose
  consumer, in order.
* `tracker->state` and `tracker->model.state` are the same 19 scalars; they are
  the field `model.state`.
* Code that is not in this source file (the Kalman kernel, linmath, the
  reprojection tables, the generated IMU and process model, the configuration
  store) is collected in the record `Env` and every definition that calls it
  takes an `Env` as its first argument.
* The assertion of `report_state` can fail on samples the tracker receives; its
  failure ends the call list with the event `abort`.  The other asserts do not
  change the data flow; their conditions are separate predicates next to the
  function.
* Logging (`SV_VERBOSE`, `SV_WARN`) is not modelled.
-/

namespace Survive

/-! ## Data model -/

/-- The constant `SURVIVE_MODEL_STATE_CNT`, the number of scalars of `SurviveKalmanModel`:
position 0..2, rotation 3..6, velocity 7..9, angular velocity 10..12,
acceleration 13..15, gyro bias 16..18. -/
def SURVIVE_MODEL_STATE_CNT : Nat := 19

/-- The kind of a `PoserData` record, field `pt`. -/
inductive PoserType where
  | POSERDATA_IMU
  | POSERDATA_LIGHT
  | POSERDATA_LIGHT_GEN2
  | POSERDATA_OTHER
  deriving DecidableEq, Repr

/-- The header `PoserData`: the kind of the record and its time code in ticks. -/
structure PoserData where
  pt : PoserType
  timecode : Nat
  deriving DecidableEq, Repr

/-- One sweep-angle sample, `PoserDataLight` with the generation-specific
fields `acode` (gen 1) and `plane` (gen 2). -/
structure PoserDataLight (F : Type) where
  hdr : PoserData
  sensor_id : Nat
  lh : Nat
  angle : F
  acode : Nat
  plane : Nat

/-- One inertial sample, `PoserDataIMU`: `accel` and `gyro` are three scalars
each and lie next to each other in memory. -/
structure PoserDataIMU (F : Type) where
  hdr : PoserData
  accel : List F
  gyro : List F

/-- One base station, `ctx->bsd[lh]`. -/
structure BaseStationData (F : Type) where
  PositionSet : Bool
  Pose : List F
  fcal : Nat → List F

/-- The part of `SurviveContext` the tracker reads. -/
structure SurviveContext (F : Type) where
  lh_version : Int
  bsd : Nat → BaseStationData F

/-- The part of `SurviveObject` the tracker reads. -/
structure SurviveObject (F : Type) where
  ctx : SurviveContext F
  timebase_hz : Int
  sensor_locations : List F

/-- The kernel's filter state `survive_kalman_state_t`: the state vector, the
covariance (a flat `state_cnt * state_cnt` array) and the time cursor. -/
structure survive_kalman_state_t (F : Type) where
  state_cnt : Nat
  state : List F
  P : List F
  t : F

/-- The statistics block `tracker->stats`.  The counters are C unsigned
integers whose declaration is not in this source file; they are natural
numbers here. -/
structure Stats (F : Type) where
  late_imu_dropped : Nat
  late_light_dropped : Nat
  obs_total_error : F
  obs_count : Nat
  lightcap_total_error : F
  lightcap_count : Nat
  imu_total_error : F
  imu_count : Nat

/-- The tracker `SurviveKalmanTracker`. -/
structure SurviveKalmanTracker (F : Type) where
  so : SurviveObject F
  model : survive_kalman_state_t F
  acc_var : F
  gyro_var : F
  obs_pos_var : F
  obs_rot_var : F
  light_var : F
  process_weight_acc : F
  process_weight_vel : F
  process_weight_pos : F
  process_weight_ang_velocity : F
  process_weight_rotation : F
  Obs_R : List F
  IMU_R : List F
  stats : Stats F

/-- A call the tracker makes to the outside, with the arguments it passes:
the four predict+update entry points of the kernel, the kernel's pure
prediction, and the downstream pose consumer; and `abort`, the end of the
program at a failed `assert`. -/
inductive Event (F : Type) where
  | predict_update_state (time : F) (Z H R : List F)
  | predict_update_state_adaptive (time : F) (Z H R : List F)
  | predict_update_state_extended (time : F) (Z R : List F)
  | predict_update_state_extended_adaptive (time : F) (Z R : List F)
  | predict_state (t : F) (i j : Nat)
  | poser_pose_func_with_velocity (pose velocity : List F)
  | abort

/-- The measurement callback type `Map_to_obs`: from `Z`, `x_t` and the buffers
`y`, `H_k` to the return flag and the new contents of `y` and `H_k`. -/
abbrev Map_to_obs (F : Type) : Type :=
  List F → List F → List F → List F → Bool × List F × List F

/-- A reprojection table `survive_reproject_model_t`, indexed by the axis:
the projection `(obj2world, ptInObj, world2lh, fcal) ↦ angle` and its
Jacobian, which writes into the row it is given. -/
structure survive_reproject_model_t (F : Type) where
  reprojectAxisFullFn : Nat → List F → List F → List F → List F → F
  reprojectAxisJacobFn : Nat → List F → List F → List F → List F → List F → List F

/-- Everything the tracker calls that is not in this source file. -/
structure Env (F : Type) where
  /-- Function `quatnormalize(qout, qin)` of linmath, as `qin ↦ qout`. -/
  quatnormalize : List F → List F
  /-- Function `InvertPoseRtn` of linmath. -/
  InvertPoseRtn : List F → List F
  /-- Function `subnd(out, a, b, n)` of linmath, as `(out, a, b, n) ↦ out`. -/
  subnd : List F → List F → List F → Nat → List F
  /-- Function `isfinite` of math.h. -/
  isfinite : F → Bool
  /-- Constant `NAN` of math.h. -/
  NAN : F
  /-- Function `survive_kalman_state_init(k, state_cnt, F_fn, Q_fn, user, state)`; the
  callbacks stay fixed afterwards and are not part of the record. -/
  survive_kalman_state_init : Nat → List F → survive_kalman_state_t F
  /-- Function `survive_kalman_predict_state(t, k, i, j, out)`, as the new `out`. -/
  survive_kalman_predict_state : F → survive_kalman_state_t F → Nat → Nat → List F → List F
  /-- Function `survive_kalman_predict_update_state(t, k, Z, H, R)`: new filter state
  and returned error. -/
  survive_kalman_predict_update_state :
    F → survive_kalman_state_t F → List F → List F → List F → survive_kalman_state_t F × F
  /-- Function `survive_kalman_predict_update_state_adaptive(t, k, Z, H, R)`: new filter
  state, new `R` and returned error. -/
  survive_kalman_predict_update_state_adaptive :
    F → survive_kalman_state_t F → List F → List F → List F →
      survive_kalman_state_t F × List F × F
  /-- Function `survive_kalman_predict_update_state_extended(t, k, Z, R, Hfn, user)`. -/
  survive_kalman_predict_update_state_extended :
    F → survive_kalman_state_t F → List F → List F → Map_to_obs F →
      survive_kalman_state_t F × F
  /-- Function `survive_kalman_predict_update_state_extended_adaptive(t, k, Z, R, Hfn, user)`. -/
  survive_kalman_predict_update_state_extended_adaptive :
    F → survive_kalman_state_t F → List F → List F → Map_to_obs F →
      survive_kalman_state_t F × List F × F
  /-- The table `survive_reproject_model` (lighthouse generation 1). -/
  survive_reproject_model : survive_reproject_model_t F
  /-- The table `survive_reproject_gen2_model`. -/
  survive_reproject_gen2_model : survive_reproject_model_t F
  /-- Function `gen_imu_predict(out, s)`, as `s ↦ out`. -/
  gen_imu_predict : List F → List F
  /-- Function `gen_imu_predict_jac_kalman_model(out, s)`, as `(out, s) ↦ out`. -/
  gen_imu_predict_jac_kalman_model : List F → List F → List F
  /-- Function `gen_kalman_model_predict(out, t, s)`, as `(out, t, s) ↦ out`. -/
  gen_kalman_model_predict : List F → F → List F → List F
  /-- Function `gen_kalman_model_predict_jac_kalman_model(out, t, s)`. -/
  gen_kalman_model_predict_jac_kalman_model : List F → F → List F → List F
  /-- Function `survive_attach_configf(ctx, tag, var)`, as the value bound to `tag`. -/
  survive_attach_configf : String → F

variable {F : Type} [LinearOrderedField F]

/-- The time of a sample in seconds, `timecode / (FLT)so->timebase_hz`, for a
device whose `timebase_hz` is not zero (a division by zero gives an infinity
or NaN in C and is outside the model). -/
def timecode_seconds (so : SurviveObject F) (pd : PoserData) : F :=
  (pd.timecode : F) / (so.timebase_hz : F)

/-- The quaternion `Pose.Rot` of a state vector or of a pose: entries 3..6. -/
def Rot (x : List F) : List F :=
  [x.getD 3 0, x.getD 4 0, x.getD 5 0, x.getD 6 0]

/-- Write a quaternion to `Pose.Rot`, entries 3..6. -/
def setRot (x q : List F) : List F :=
  (((x.set 3 (q.getD 0 0)).set 4 (q.getD 1 0)).set 5 (q.getD 2 0)).set 6 (q.getD 3 0)

/-- The squared norm of a quaternion. -/
def quat_norm_sq (q : List F) : F :=
  q.getD 0 0 * q.getD 0 0 + q.getD 1 0 * q.getD 1 0 + q.getD 2 0 * q.getD 2 0
    + q.getD 3 0 * q.getD 3 0

/-! ## Process model -/

/-- The value `i == j ? (v ? v[i] : 1.) : 0.` that `arr_eye_diag` and
`mat_eye_diag` store; `v` is `none` for a null pointer. -/
def eye_diag_value (v : Option (List F)) (i j : Nat) : F :=
  if i = j then (match v with | some v => v.getD i 0 | none => 1) else 0

/-- The loop of `arr_eye_diag`: `m[j * cols + i] = i == j ? (v ? v[i] : 1.) : 0.`
for `i < rows`, `j < cols`. -/
def arr_eye_diag (m : List F) (rows cols : Nat) (v : Option (List F)) : List F :=
  (List.range rows).foldl (fun m i =>
    (List.range cols).foldl (fun m j =>
      m.set (j * cols + i) (eye_diag_value v i j)) m) m

/-- The array `Q` that `model_q_fn` builds and copies to `q_out`, row by row;
`t` is the time step and `x` the state vector. -/
def model_q_fn (tracker : SurviveKalmanTracker F) (t : F) (x : List F) : List F :=
  let t2 := t * t
  let t3 := t * t * t
  let t4 := t2 * t2
  let t5 := t3 * t2
  let Q_acc : List F := [t5 / 20, t4 / 8, t3 / 6, t3 / 3, t2 / 2, t]
  let Q_vel : List F := [t3 / 3, t2 / 2, t]
  let q_p := tracker.process_weight_acc
  let p_p := q_p * Q_acc.getD 0 0 + tracker.process_weight_vel * Q_vel.getD 0 0
    + tracker.process_weight_pos * t
  let p_v := q_p * Q_acc.getD 1 0 + tracker.process_weight_vel * Q_vel.getD 1 0
  let p_a := q_p * Q_acc.getD 2 0
  let v_v := q_p * Q_acc.getD 3 0 + tracker.process_weight_vel * Q_vel.getD 2 0
  let v_a := q_p * Q_acc.getD 4 0
  let a_a := q_p * Q_acc.getD 5 0
  let s_w := tracker.process_weight_ang_velocity
  let s_f := s_w / 12 * t3
  let s_s := s_w / 4 * t2
  let qw := (Rot x).getD 0 0
  let qx := (Rot x).getD 1 0
  let qy := (Rot x).getD 2 0
  let qz := (Rot x).getD 3 0
  let qws := qw * qw
  let qxs := qx * qx
  let qys := qy * qy
  let qzs := qz * qz
  let qs := qws + qxs + qys + qzs
  let rv := tracker.process_weight_rotation * t
  let gb := 1e-10 * t
  [
    p_p, 0, 0, 0, 0, 0, 0, p_v, 0, 0, 0, 0, 0, p_a, 0, 0, 0, 0, 0,  -- x
    0, p_p, 0, 0, 0, 0, 0, 0, p_v, 0, 0, 0, 0, 0, p_a, 0, 0, 0, 0,  -- y
    0, 0, p_p, 0, 0, 0, 0, 0, 0, p_v, 0, 0, 0, 0, 0, p_a, 0, 0, 0,  -- z
    0, 0, 0, rv+s_f*(qs-qws), s_f*(-qw*qx), s_f*(-qw*qy), s_f*(-qw*qz), 0, 0, 0, -s_s*qx, -s_s*qy, -s_s*qz, 0, 0, 0, 0, 0, 0,  -- qw
    0, 0, 0, s_f*(-qw*qx), rv+s_f*(qs-qxs), s_f*(-qx*qy), s_f*(-qx*qz), 0, 0, 0, s_s*qw, -s_s*qz, s_s*qy, 0, 0, 0, 0, 0, 0,  -- qx
    0, 0, 0, s_f*(-qw*qy), s_f*(-qx*qy), rv+s_f*(qs-qys), s_f*(-qy*qz), 0, 0, 0, s_s*qz, s_s*qw, -s_s*qx, 0, 0, 0, 0, 0, 0,  -- qy
    0, 0, 0, s_f*(-qw*qz), s_f*(-qx*qz), s_f*(-qy*qz), rv+s_f*(qs-qzs), 0, 0, 0, -s_s*qy, s_s*qx, s_s*qw, 0, 0, 0, 0, 0, 0,  -- qz
    p_v, 0, 0, 0, 0, 0, 0, v_v, 0, 0, 0, 0, 0, v_a, 0, 0, 0, 0, 0,  -- vx
    0, p_v, 0, 0, 0, 0, 0, 0, v_v, 0, 0, 0, 0, 0, v_a, 0, 0, 0, 0,  -- vy
    0, 0, p_v, 0, 0, 0, 0, 0, 0, v_v, 0, 0, 0, 0, 0, v_a, 0, 0, 0,  -- vz
    0, 0, 0, -s_s*qx, s_s*qw, s_s*qz, -s_s*qy, 0, 0, 0, s_w * t, 0, 0, 0, 0, 0, 0, 0, 0,  -- avx
    0, 0, 0, -s_s*qy, -s_s*qz, s_s*qw, s_s*qx, 0, 0, 0, 0, s_w * t, 0, 0, 0, 0, 0, 0, 0,  -- avy
    0, 0, 0, -s_s*qz, s_s*qy, -s_s*qx, s_s*qw, 0, 0, 0, 0, 0, s_w * t, 0, 0, 0, 0, 0, 0,  -- avz
    p_a, 0, 0, 0, 0, 0, 0, v_a, 0, 0, 0, 0, 0, a_a, 0, 0, 0, 0, 0,  -- ax
    0, p_a, 0, 0, 0, 0, 0, 0, v_a, 0, 0, 0, 0, 0, a_a, 0, 0, 0, 0,  -- ay
    0, 0, p_a, 0, 0, 0, 0, 0, 0, v_a, 0, 0, 0, 0, 0, a_a, 0, 0, 0,  -- az
    0, 0, 0, 0, 0, 0, 0, 0, 0, 0, 0, 0, 0, 0, 0, 0, gb, 0, 0,  -- bx
    0, 0, 0, 0, 0, 0, 0, 0, 0, 0, 0, 0, 0, 0, 0, 0, 0, gb, 0,  -- by
    0, 0, 0, 0, 0, 0, 0, 0, 0, 0, 0, 0, 0, 0, 0, 0, 0, 0, gb  -- bz
  ]

/-- Entry `Q[j + i * SURVIVE_MODEL_STATE_CNT]` of a flat 19x19 array: row `i`,
column `j`. -/
def entry (Q : List F) (i j : Nat) : F :=
  Q.getD (j + i * SURVIVE_MODEL_STATE_CNT) 0

/-- The condition of the assertion loop at the end of `model_q_fn`:
`Q[j + i * 19] == Q[i + j * 19]` for all `j < i < 19`. -/
def model_q_fn_assertion (tracker : SurviveKalmanTracker F) (t : F) (x : List F) : Bool :=
  (List.range SURVIVE_MODEL_STATE_CNT).all fun i =>
    (List.range i).all fun j =>
      decide ((model_q_fn tracker t x).getD (j + i * SURVIVE_MODEL_STATE_CNT) 0
        = (model_q_fn tracker t x).getD (i + j * SURVIVE_MODEL_STATE_CNT) 0)

/-- The asserted precondition of `model_predict`. -/
def model_predict_assertion (t : F) : Prop := t > 0

/-- The process step `model_predict`: the generated `gen_kalman_model_predict`
writes `f_out` from `t` and the filter's state vector. -/
def model_predict (E : Env F) (t : F) (k : survive_kalman_state_t F) (f_out : List F) : List F :=
  E.gen_kalman_model_predict f_out t k.state

/-- The state-transition Jacobian `model_predict_jac`: the identity for `t == 0`,
the generated Jacobian otherwise. -/
def model_predict_jac (E : Env F) (t : F) (f_out : List F) (x0 : List F) : List F :=
  if t = 0 then
    arr_eye_diag f_out SURVIVE_MODEL_STATE_CNT SURVIVE_MODEL_STATE_CNT none
  else
    E.gen_kalman_model_predict_jac_kalman_model f_out t x0

/-- The measurement matrix `_H` of `survive_imu_integrate_pose`, 7 x 19. -/
def pose_H : List F :=
  [
    1, 0, 0, 0, 0, 0, 0, 0, 0, 0, 0, 0, 0, 0, 0, 0, 0, 0, 0,
    0, 1, 0, 0, 0, 0, 0, 0, 0, 0, 0, 0, 0, 0, 0, 0, 0, 0, 0,
    0, 0, 1, 0, 0, 0, 0, 0, 0, 0, 0, 0, 0, 0, 0, 0, 0, 0, 0,
    0, 0, 0, 1, 0, 0, 0, 0, 0, 0, 0, 0, 0, 0, 0, 0, 0, 0, 0,
    0, 0, 0, 0, 1, 0, 0, 0, 0, 0, 0, 0, 0, 0, 0, 0, 0, 0, 0,
    0, 0, 0, 0, 0, 1, 0, 0, 0, 0, 0, 0, 0, 0, 0, 0, 0, 0, 0,
    0, 0, 0, 0, 0, 0, 1, 0, 0, 0, 0, 0, 0, 0, 0, 0, 0, 0, 0
  ]

/-! ## Gates and helpers -/

/-- The two sums of the loop shared by `position_found` and `report_state`:
`pos_variance` adds `fabs(P[19 * i + i])` for `i < 7`, `vel_variance` for
`7 <= i < 13`. -/
def diag_variance (P : List F) : F × F :=
  (List.range SURVIVE_MODEL_STATE_CNT).foldl (fun (acc : F × F) i =>
    if i < 7 then (acc.1 + |P.getD (SURVIVE_MODEL_STATE_CNT * i + i) 0|, acc.2)
    else if i < 13 then (acc.1, acc.2 + |P.getD (SURVIVE_MODEL_STATE_CNT * i + i) 0|)
    else acc) (0, 0)

/-- The gate `survive_kalman_tracker_position_found`: false when
`pos_variance > .1`. -/
def survive_kalman_tracker_position_found (tracker : SurviveKalmanTracker F) : Bool :=
  let pos_variance := (diag_variance tracker.model.P).1
  if pos_variance > 0.1 then false else true

/-- The helper `normalize_model`: `quatnormalize` applied in place to the
rotation of the state. -/
def normalize_model (E : Env F) (pTracker : SurviveKalmanTracker F) : SurviveKalmanTracker F :=
  { pTracker with
    model := { pTracker.model with
      state := setRot pTracker.model.state (E.quatnormalize (Rot pTracker.model.state)) } }

/-! ## Measurement callbacks -/

/-- The axis of a sweep sample as `map_light_data` selects it; the `default`
branch of the switch asserts and leaves `axis = 0`. -/
def light_axis (pdl : PoserDataLight F) : Nat :=
  match pdl.hdr.pt with
  | PoserType.POSERDATA_LIGHT => pdl.acode % 2
  | PoserType.POSERDATA_LIGHT_GEN2 => pdl.plane
  | _ => 0

/-- The callback `map_light_data` for one sweep sample: the innovation
`y[0] = Z[0] - h_x`, the Jacobian row zeroed and then written by the
reprojection table, and `false` when one of its first 7 entries is not
finite. -/
def map_light_data (E : Env F) (tracker : SurviveKalmanTracker F) (pdl : PoserDataLight F) :
    Map_to_obs F := fun Z x_t y H_k =>
  let so := tracker.so
  let ctx := tracker.so.ctx
  let mdl := if ctx.lh_version = 0 then E.survive_reproject_model
    else E.survive_reproject_gen2_model
  let axis := light_axis pdl
  let project_fn := mdl.reprojectAxisFullFn axis
  let project_jacob_fn := mdl.reprojectAxisJacobFn axis
  let world2lh := E.InvertPoseRtn (ctx.bsd pdl.lh).Pose
  let obj2world := x_t.take 7
  let ptInObj := (so.sensor_locations.drop (pdl.sensor_id * 3)).take 3
  let h_x := project_fn obj2world ptInObj world2lh ((ctx.bsd pdl.lh).fcal axis)
  let y := y.set 0 (Z.getD 0 0 - h_x)
  let H_k := H_k.map (fun _ => (0 : F))
  let H_k := project_jacob_fn H_k obj2world ptInObj world2lh ((ctx.bsd pdl.lh).fcal axis)
  if (List.range 7).all (fun i => E.isfinite (H_k.getD i 0)) then (true, y, H_k)
  else (false, y, H_k)

/-- The conditions `map_light_data` asserts: the sample is a sweep sample and
its base station has a position. -/
def map_light_data_assertion (tracker : SurviveKalmanTracker F) (pdl : PoserDataLight F) :
    Prop :=
  (pdl.hdr.pt = PoserType.POSERDATA_LIGHT ∨ pdl.hdr.pt = PoserType.POSERDATA_LIGHT_GEN2)
    ∧ (tracker.so.ctx.bsd pdl.lh).PositionSet = true

/-- The callback `map_imu_data`: the Jacobian is filled with `NAN` and then
written by the generated code, the innovation is `Z - h_x`; always `true`. -/
def map_imu_data (E : Env F) : Map_to_obs F := fun Z x_t y H_k =>
  let H_k := H_k.map (fun _ => E.NAN)
  let h_x := E.gen_imu_predict x_t
  let H_k := E.gen_imu_predict_jac_kalman_model H_k x_t
  let y := E.subnd y Z h_x Z.length
  (true, y, H_k)

/-! ## Prediction and reporting -/

/-- The query `survive_kalman_tracker_predict`: nothing when `model.t == 0`,
otherwise the kernel's prediction of state entries 0..6 at time `t`, written
to `out`, with the rotation of `out` normalized.  Returns the new `out`. -/
def survive_kalman_tracker_predict (E : Env F) (tracker : SurviveKalmanTracker F) (t : F)
    (out : List F) : List F × List (Event F) :=
  if tracker.model.t = 0 then (out, [])
  else
    let out := E.survive_kalman_predict_state t tracker.model 0 7 out
    let out := setRot out (E.quatnormalize (Rot out))
    (out, [Event.predict_state t 0 7])

/-- The query `survive_kalman_tracker_velocity`: the kernel's prediction of
state entries 7..12 at time 0, written to a zeroed `SurviveVelocity`. -/
def survive_kalman_tracker_velocity (E : Env F) (tracker : SurviveKalmanTracker F) :
    List F × List (Event F) :=
  let rtn : List F := List.replicate 6 0
  (E.survive_kalman_predict_state 0 tracker.model 7 13 rtn, [Event.predict_state 0 7 13])

/-- The time `report_state` predicts to: the sample's time, replaced by
`model.t` when it lies before it. -/
def report_state_time (pd : PoserData) (tracker : SurviveKalmanTracker F) : F :=
  let t := timecode_seconds tracker.so pd
  if t < tracker.model.t then tracker.model.t else t

/-- The condition `report_state` asserts before it clamps the time:
`model.t - t < 1` whenever `t < model.t`. -/
def report_state_assertion (pd : PoserData) (tracker : SurviveKalmanTracker F) : Prop :=
  timecode_seconds tracker.so pd < tracker.model.t →
    tracker.model.t - timecode_seconds tracker.so pd < 1

/-- The procedure `survive_kalman_tracker_report_state`.  When the sample's
time `t` lies before `model.t` and the asserted `model.t - t < 1` is false, the
program aborts there: nothing is predicted or reported.  Otherwise: predict the
pose at the clamped time, return without reporting when `position_found`
fails, otherwise hand pose and velocity to the pose consumer. -/
def survive_kalman_tracker_report_state (E : Env F) (pd : PoserData)
    (tracker : SurviveKalmanTracker F) : SurviveKalmanTracker F × List (Event F) :=
  let pose : List F := List.replicate 7 0
  let t := timecode_seconds tracker.so pd
  if t < tracker.model.t ∧ ¬ (tracker.model.t - t < 1) then (tracker, [Event.abort])
  else
    let t := report_state_time pd tracker
    let p := survive_kalman_tracker_predict E tracker t pose
    if !survive_kalman_tracker_position_found tracker then (tracker, p.2)
    else
      let velocity := survive_kalman_tracker_velocity E tracker
      (tracker, p.2 ++ velocity.2 ++ [Event.poser_pose_func_with_velocity p.1 velocity.1])

/-! ## Integration of measurements -/

/-- The entry point `survive_kalman_tracker_integrate_light`. -/
def survive_kalman_tracker_integrate_light (E : Env F) (tracker : SurviveKalmanTracker F)
    (data : PoserDataLight F) : SurviveKalmanTracker F × List (Event F) :=
  let ctx := tracker.so.ctx
  if !survive_kalman_tracker_position_found tracker then (tracker, [])
  else if !(ctx.bsd data.lh).PositionSet then (tracker, [])
  else
    let time := timecode_seconds tracker.so data.hdr
    if tracker.light_var ≥ 0 then
      let Z : List F := [data.angle]
      let r := E.survive_kalman_predict_update_state_extended time tracker.model Z
        [tracker.light_var] (map_light_data E tracker data)
      let tracker := { tracker with
        model := r.1
        stats := { tracker.stats with
          lightcap_total_error := tracker.stats.lightcap_total_error + r.2
          lightcap_count := tracker.stats.lightcap_count + 1 } }
      let tracker := normalize_model E tracker
      let rep := survive_kalman_tracker_report_state E data.hdr tracker
      (rep.1, Event.predict_update_state_extended time Z [tracker.light_var] :: rep.2)
    else (tracker, [])

/-- The working array `rotation_variance` of `integrate_imu`: six times `1e5`,
the first three replaced by `acc_var` when the accelerometer is used, the
last three by `gyro_var` when the gyroscope is used. -/
def imu_rotation_variance (tracker : SurviveKalmanTracker F) : List F :=
  let rotation_variance : List F := [1e5, 1e5, 1e5, 1e5, 1e5, 1e5]
  let rotation_variance :=
    if tracker.acc_var ≥ 0 ∧ |tracker.model.P.getD 0 0| < 1 then
      (List.range 3).foldl (fun rv i => rv.set i tracker.acc_var) rotation_variance
    else rotation_variance
  if tracker.gyro_var ≥ 0 then
    (List.range 3).foldl (fun rv i => rv.set (3 + i) tracker.gyro_var) rotation_variance
  else rotation_variance

/-- The flag `fn_ctx.use_accel` of `integrate_imu`. -/
def imu_use_accel (tracker : SurviveKalmanTracker F) : Bool :=
  decide (tracker.acc_var ≥ 0 ∧ |tracker.model.P.getD 0 0| < 1)

/-- The flag `fn_ctx.use_gyro` of `integrate_imu`. -/
def imu_use_gyro (tracker : SurviveKalmanTracker F) : Bool :=
  decide (tracker.gyro_var ≥ 0)

/-- The entry point `survive_kalman_tracker_integrate_imu`.  The kernel is
handed `tracker->IMU_R`; the local `R = rotation_variance` is only logged, and
so is the warning for `time_diff > 0.5`. -/
def survive_kalman_tracker_integrate_imu (E : Env F) (tracker : SurviveKalmanTracker F)
    (data : PoserDataIMU F) : SurviveKalmanTracker F × List (Event F) :=
  if tracker.model.t = 0 then (tracker, [])
  else
    let time := timecode_seconds tracker.so data.hdr
    let time_diff := time - tracker.model.t
    if time_diff < -0.01 then
      ({ tracker with
          stats := { tracker.stats with
            late_imu_dropped := tracker.stats.late_imu_dropped + 1 } }, [])
    else
      let upd : SurviveKalmanTracker F × List (Event F) :=
        if imu_use_gyro tracker || imu_use_accel tracker then
          let R := imu_rotation_variance tracker
          let Z : List F := data.accel ++ data.gyro
          let r := E.survive_kalman_predict_update_state_extended_adaptive time tracker.model Z
            tracker.IMU_R (map_imu_data E)
          let tracker' := { tracker with
            model := r.1
            IMU_R := r.2.1
            stats := { tracker.stats with
              imu_total_error := tracker.stats.imu_total_error + r.2.2
              imu_count := tracker.stats.imu_count + 1 } }
          (normalize_model E tracker',
            [Event.predict_update_state_extended_adaptive time Z tracker.IMU_R])
        else (tracker, [])
      let rep := survive_kalman_tracker_report_state E data.hdr upd.1
      (rep.1, upd.2 ++ rep.2)

/-- The update `survive_imu_integrate_pose`: the linear kernel update with the
caller's `R` when there is one, the adaptive one with `Obs_R` otherwise.
Returns the new tracker, the kernel's error and the call made. -/
def survive_imu_integrate_pose (E : Env F) (tracker : SurviveKalmanTracker F) (time : F)
    (pose : List F) (R : Option (List F)) : SurviveKalmanTracker F × F × List (Event F) :=
  let H : List F := pose_H
  let Zp : List F := pose.take 7
  match R with
  | some R =>
    let r := E.survive_kalman_predict_update_state time tracker.model Zp H R
    ({ tracker with model := r.1 }, r.2, [Event.predict_update_state time Zp H R])
  | none =>
    let r := E.survive_kalman_predict_update_state_adaptive time tracker.model Zp H
      tracker.Obs_R
    ({ tracker with model := r.1, Obs_R := r.2.1 }, r.2.2,
      [Event.predict_update_state_adaptive time Zp H tracker.Obs_R])

/-- The part of `integrate_observation` after the late gate: the local array
`R` (which hides the parameter `R`), the update, the statistics and the
report. -/
def integrate_observation_update (E : Env F) (pd : PoserData) (tracker : SurviveKalmanTracker F)
    (time : F) (pose : List F) : SurviveKalmanTracker F × List (Event F) :=
  if tracker.obs_pos_var ≥ 0 ∧ tracker.obs_rot_var ≥ 0 then
    let R : List F := [tracker.obs_pos_var, tracker.obs_pos_var, tracker.obs_pos_var,
      tracker.obs_rot_var, tracker.obs_rot_var, tracker.obs_rot_var, tracker.obs_rot_var]
    let r := survive_imu_integrate_pose E tracker time pose (some R)
    let tracker := { r.1 with
      stats := { r.1.stats with
        obs_total_error := r.1.stats.obs_total_error + r.2.1
        obs_count := r.1.stats.obs_count + 1 } }
    let rep := survive_kalman_tracker_report_state E pd tracker
    (rep.1, r.2.2 ++ rep.2)
  else (tracker, [])

/-- The entry point `survive_kalman_tracker_integrate_observation`; `R` is the
caller's measurement noise, `none` for a null pointer. -/
def survive_kalman_tracker_integrate_observation (E : Env F) (pd : PoserData)
    (tracker : SurviveKalmanTracker F) (pose : List F) (R : Option (List F)) :
    SurviveKalmanTracker F × List (Event F) :=
  let time := timecode_seconds tracker.so pd
  let tracker :=
    if tracker.model.t = 0 then { tracker with model := { tracker.model with t := time } }
    else tracker
  if time - tracker.model.t < 0 then
    if time - tracker.model.t > -0.1 then
      integrate_observation_update E pd tracker time pose
    else
      ({ tracker with
          stats := { tracker.stats with
            late_light_dropped := tracker.stats.late_light_dropped + 1 } }, [])
  else
    integrate_observation_update E pd tracker time pose

/-! ## Initialization -/

/-- The binding `survive_kalman_tracker_config` with `survive_attach_configf`:
every tunable takes the value configured for its tag. -/
def survive_kalman_tracker_config (E : Env F) (tracker : SurviveKalmanTracker F) :
    SurviveKalmanTracker F :=
  { tracker with
    acc_var := E.survive_attach_configf "imu-acc-variance"
    gyro_var := E.survive_attach_configf "imu-gyro-variance"
    obs_pos_var := E.survive_attach_configf "obs-pos-variance"
    obs_rot_var := E.survive_attach_configf "obs-rot-variance"
    light_var := E.survive_attach_configf "light-variance"
    process_weight_acc := E.survive_attach_configf "process-weight-acc"
    process_weight_vel := E.survive_attach_configf "process-weight-vel"
    process_weight_pos := E.survive_attach_configf "process-weight-pos"
    process_weight_ang_velocity := E.survive_attach_configf "process-weight-ang-vel"
    process_weight_rotation := E.survive_attach_configf "process-weight-rot" }

/-- The tracker after `memset(tracker, 0, sizeof(*tracker))` and `tracker->so = so`. -/
def zero_tracker (so : SurviveObject F) : SurviveKalmanTracker F :=
  { so := so
    model := { state_cnt := 0, state := List.replicate SURVIVE_MODEL_STATE_CNT 0, P := [], t := 0 }
    acc_var := 0
    gyro_var := 0
    obs_pos_var := 0
    obs_rot_var := 0
    light_var := 0
    process_weight_acc := 0
    process_weight_vel := 0
    process_weight_pos := 0
    process_weight_ang_velocity := 0
    process_weight_rotation := 0
    Obs_R := List.replicate (7 * 7) 0
    IMU_R := List.replicate (6 * 6) 0
    stats := { late_imu_dropped := 0, late_light_dropped := 0, obs_total_error := 0,
               obs_count := 0, lightcap_total_error := 0, lightcap_count := 0,
               imu_total_error := 0, imu_count := 0 } }

/-- The constructor `survive_kalman_tracker_init`. -/
def survive_kalman_tracker_init (E : Env F) (so : SurviveObject F) : SurviveKalmanTracker F :=
  let tracker := zero_tracker so
  let tracker := survive_kalman_tracker_config E tracker
  let state_cnt := SURVIVE_MODEL_STATE_CNT
  let tracker := { tracker with
    model := E.survive_kalman_state_init state_cnt tracker.model.state }
  let tracker := { tracker with
    model := { tracker.model with state := tracker.model.state.set 3 1 } }
  let P := (List.range 7).foldl
    (fun P i => P.set (i * SURVIVE_MODEL_STATE_CNT + i) 1e3) tracker.model.P
  let P := ((List.range 3).map (fun i => 16 + i)).foldl
    (fun P i => P.set (i * SURVIVE_MODEL_STATE_CNT + i) 1) P
  let tracker := { tracker with model := { tracker.model with P := P } }
  let Rrs := tracker.obs_rot_var
  let Rps := tracker.obs_pos_var
  let Rr : List F := [Rrs, Rrs, Rrs, Rrs, Rps, Rps, Rps]
  let tracker := { tracker with Obs_R := arr_eye_diag tracker.Obs_R 7 7 (some Rr) }
  let Rimu : List F := [tracker.acc_var, tracker.acc_var, tracker.acc_var,
    tracker.gyro_var, tracker.gyro_var, tracker.gyro_var]
  { tracker with IMU_R := arr_eye_diag tracker.IMU_R 6 6 (some Rimu) }

/-! ## Index sets of the process-noise matrix -/

/-- The first index of the position (0), velocity (1) and acceleration (2)
triple of the state vector. -/
def positional_offset : Fin 3 → Nat
  | 0 => 0
  | 1 => 7
  | 2 => 13

/-- Indices of the positional sub-model: 0..2, 7..9, 13..15. -/
def positional_index (i : Nat) : Bool :=
  decide (i < 3) || (decide (7 ≤ i) && decide (i < 10)) || (decide (13 ≤ i) && decide (i < 16))

/-- Indices of the rotational sub-model: 3..6 and 10..12. -/
def rotational_index (i : Nat) : Bool :=
  (decide (3 ≤ i) && decide (i < 7)) || (decide (10 ≤ i) && decide (i < 13))

/-- Indices of the gyro bias: 16..18. -/
def gyro_bias_index (i : Nat) : Bool :=
  decide (16 ≤ i) && decide (i < 19)

/-! ## A concrete environment and concrete inputs

The theorems below hold for every `Env`.  To evaluate the tracker on concrete
inputs an environment over the rationals is fixed here. -/

/-- Sample kernel state after `survive_kalman_state_init`: the caller's state
buffer, a zero covariance, time 0. -/
def sample_state_init (state_cnt : Nat) (state : List ℚ) : survive_kalman_state_t ℚ :=
  { state_cnt := state_cnt, state := state, P := List.replicate (state_cnt * state_cnt) 0,
    t := 0 }

/-- Sample linear update for a measurement of the first `Z.length` state
entries (`H = [I | 0]`) with diagonal noise `R`: the clock moves to `t` and
every measured entry `i` gets the scalar Kalman correction with gain
`P[i,i] / (P[i,i] + R[i])`.  It is the exact Kalman update when `P` is diagonal and no time has
elapsed. -/
def sample_predict_update (t : ℚ) (k : survive_kalman_state_t ℚ) (Z R : List ℚ) :
    survive_kalman_state_t ℚ :=
  (List.range Z.length).foldl (fun k i =>
    let p := k.P.getD (i * k.state_cnt + i) 0
    let g := p / (p + R.getD i 0)
    { k with
      state := k.state.set i (k.state.getD i 0 + g * (Z.getD i 0 - k.state.getD i 0))
      P := k.P.set (i * k.state_cnt + i) ((1 - g) * p) }) { k with t := t }

/-- Sample non-linear update: the callback is evaluated on the current state;
when it accepts, the clock moves to `t` (no correction is applied), when it
rejects, the sample is skipped. -/
def sample_predict_update_extended (t : ℚ) (k : survive_kalman_state_t ℚ) (Z : List ℚ)
    (Hfn : Map_to_obs ℚ) : survive_kalman_state_t ℚ :=
  if (Hfn Z k.state (List.replicate Z.length 0)
      (List.replicate (Z.length * k.state_cnt) 0)).1 then { k with t := t }
  else k

/-- Sample square root, exact on squares of rationals. -/
def sample_sqrt (r : ℚ) : ℚ :=
  (Nat.sqrt r.num.natAbs : ℚ) / (Nat.sqrt r.den : ℚ)

/-- Sample reprojection table: constant angle 0, Jacobian row left as given. -/
def sample_reproject_model : survive_reproject_model_t ℚ :=
  { reprojectAxisFullFn := fun _ _ _ _ _ => 0
    reprojectAxisJacobFn := fun _ out _ _ _ _ => out }

/-- The default of each configuration tag, from the `STATIC_CONFIG_ITEM` lines. -/
def config_default (tag : String) : ℚ :=
  if tag = "process-weight-acc" then 10
  else if tag = "process-weight-ang-vel" then 1
  else if tag = "process-weight-vel" then 0
  else if tag = "process-weight-pos" then 0
  else if tag = "process-weight-rot" then 0
  else if tag = "light-variance" then 1e-6
  else if tag = "obs-pos-variance" then 0.02
  else if tag = "obs-rot-variance" then 0.01
  else if tag = "imu-acc-variance" then 5e-5
  else if tag = "imu-gyro-variance" then 1e-2
  else 0

/-- The sample environment. -/
def sample_env : Env ℚ :=
  { quatnormalize := fun q => q.map (fun c => c / sample_sqrt (quat_norm_sq q))
    InvertPoseRtn := fun p => p
    subnd := fun out a b n =>
      (List.range n).foldl (fun out i => out.set i (a.getD i 0 - b.getD i 0)) out
    isfinite := fun _ => true
    NAN := 0
    survive_kalman_state_init := sample_state_init
    survive_kalman_predict_state := fun _ k i j out =>
      (List.range (j - i)).foldl (fun out n => out.set n (k.state.getD (i + n) 0)) out
    survive_kalman_predict_update_state := fun t k Z _ R => (sample_predict_update t k Z R, 0)
    survive_kalman_predict_update_state_adaptive := fun t k Z _ R =>
      (sample_predict_update t k Z ((List.range Z.length).map fun i => R.getD (i * Z.length + i) 0),
        R, 0)
    survive_kalman_predict_update_state_extended := fun t k Z _ Hfn =>
      (sample_predict_update_extended t k Z Hfn, 0)
    survive_kalman_predict_update_state_extended_adaptive := fun t k Z R Hfn =>
      (sample_predict_update_extended t k Z Hfn, R, 0)
    survive_reproject_model := sample_reproject_model
    survive_reproject_gen2_model := sample_reproject_model
    gen_imu_predict := fun _ => List.replicate 6 0
    gen_imu_predict_jac_kalman_model := fun out _ => out
    gen_kalman_model_predict := fun out _ s => s.take out.length
    gen_kalman_model_predict_jac_kalman_model := fun out _ _ => out
    survive_attach_configf := config_default }

/-- A device with a 1 kHz time base and base stations at the origin. -/
def sample_so : SurviveObject ℚ :=
  { ctx := { lh_version := 0
             bsd := fun _ => { PositionSet := true, Pose := [0, 0, 0, 1, 0, 0, 0],
                               fcal := fun _ => [] } }
    timebase_hz := 1000
    sensor_locations := [0, 0, 0] }

/-- The tracker right after `survive_kalman_tracker_init`. -/
def fresh_tracker : SurviveKalmanTracker ℚ :=
  survive_kalman_tracker_init sample_env sample_so

/-- The freshly initialized tracker with its time cursor moved to `t`. -/
def tracker_at (t : ℚ) : SurviveKalmanTracker ℚ :=
  { fresh_tracker with model := { fresh_tracker.model with t := t } }

/-- An IMU sample at rest (accelerometer reads gravity) with the given time code. -/
def imu_sample (timecode : Nat) : PoserDataIMU ℚ :=
  { hdr := { pt := PoserType.POSERDATA_IMU, timecode := timecode }
    accel := [0, 0, 1]
    gyro := [0, 0, 0] }

/-- The header of a pose observation with the given time code. -/
def obs_header (timecode : Nat) : PoserData :=
  { pt := PoserType.POSERDATA_OTHER, timecode := timecode }

/-- The times handed to the kernel's predict+update entry points, in call order. -/
def handed_times : List (Event F) → List F
  | [] => []
  | Event.predict_update_state time _ _ _ :: es => time :: handed_times es
  | Event.predict_update_state_adaptive time _ _ _ :: es => time :: handed_times es
  | Event.predict_update_state_extended time _ _ :: es => time :: handed_times es
  | Event.predict_update_state_extended_adaptive time _ _ :: es => time :: handed_times es
  | _ :: es => handed_times es

/-- The measurement noise `R` handed to the kernel's predict+update entry
points, in call order. -/
def handed_noise : List (Event F) → List (List F)
  | [] => []
  | Event.predict_update_state _ _ _ R :: es => R :: handed_noise es
  | Event.predict_update_state_adaptive _ _ _ R :: es => R :: handed_noise es
  | Event.predict_update_state_extended _ _ R :: es => R :: handed_noise es
  | Event.predict_update_state_extended_adaptive _ _ R :: es => R :: handed_noise es
  | _ :: es => handed_noise es

/-- The `(pose, velocity)` pairs handed to the downstream pose consumer, in
call order. -/
def pose_reports : List (Event F) → List (List F × List F)
  | [] => []
  | Event.poser_pose_func_with_velocity pose velocity :: es => (pose, velocity) :: pose_reports es
  | _ :: es => pose_reports es

/-- A sweep sample of base station 0, sensor 0, with the given time code. -/
def light_sample (timecode : Nat) : PoserDataLight ℚ :=
  { hdr := { pt := PoserType.POSERDATA_LIGHT, timecode := timecode }
    sensor_id := 0
    lh := 0
    angle := 0
    acode := 0
    plane := 0 }

/-- A tracker that has converged: time cursor `t`, rotation `q`, zero
covariance. -/
def converged_tracker (t : ℚ) (q : List ℚ) : SurviveKalmanTracker ℚ :=
  { fresh_tracker with
    model := { fresh_tracker.model with
      t := t
      state := setRot fresh_tracker.model.state q
      P := List.replicate (SURVIVE_MODEL_STATE_CNT * SURVIVE_MODEL_STATE_CNT) 0 } }

/-- Modelled from the spec: linmath's `quatnormalize` is not in this source
file.  The spec has the quaternion "renormalized" so that its norm is 1; the
contract at a non-zero quaternion `q` is that the result is `q` scaled by a
positive factor and has norm 1. -/
def quatnormalize_normalizes (E : Env F) (q : List F) : Prop :=
  quat_norm_sq q ≠ 0 →
    ∃ c : F, 0 < c ∧ E.quatnormalize q = q.map (fun a => a * c)
      ∧ quat_norm_sq (E.quatnormalize q) = 1

/-- The filter state the kernel returns for the predict+update call that
`integrate_imu` makes. -/
def imu_kernel_result (E : Env F) (tracker : SurviveKalmanTracker F) (data : PoserDataIMU F) :
    survive_kalman_state_t F :=
  (E.survive_kalman_predict_update_state_extended_adaptive
    (timecode_seconds tracker.so data.hdr) tracker.model (data.accel ++ data.gyro)
    tracker.IMU_R (map_imu_data E)).1

/-- The filter state the kernel returns for the predict+update call that
`integrate_light` makes. -/
def light_kernel_result (E : Env F) (tracker : SurviveKalmanTracker F)
    (data : PoserDataLight F) : survive_kalman_state_t F :=
  (E.survive_kalman_predict_update_state_extended
    (timecode_seconds tracker.so data.hdr) tracker.model [data.angle]
    [tracker.light_var] (map_light_data E tracker data)).1


/-- The reprojection table `mdl` that `map_light_data` selects by the
lighthouse generation. -/
def light_reproject_model (E : Env F) (tracker : SurviveKalmanTracker F) :
    survive_reproject_model_t F :=
  if tracker.so.ctx.lh_version = 0 then E.survive_reproject_model
  else E.survive_reproject_gen2_model

/-- The predicted angle `h_x` of `map_light_data`: the projection of the sensor
for the pose in `x_t`, the inverted base-station pose and the calibration of
the sample's base station and axis. -/
def light_h_x (E : Env F) (tracker : SurviveKalmanTracker F) (pdl : PoserDataLight F)
    (x_t : List F) : F :=
  (light_reproject_model E tracker).reprojectAxisFullFn (light_axis pdl) (x_t.take 7)
    ((tracker.so.sensor_locations.drop (pdl.sensor_id * 3)).take 3)
    (E.InvertPoseRtn (tracker.so.ctx.bsd pdl.lh).Pose)
    ((tracker.so.ctx.bsd pdl.lh).fcal (light_axis pdl))

/-- The Jacobian row of `map_light_data`: `H_k` zeroed by `memset` and then
written by the reprojection table's Jacobian function. -/
def light_jacobian_row (E : Env F) (tracker : SurviveKalmanTracker F)
    (pdl : PoserDataLight F) (x_t H_k : List F) : List F :=
  (light_reproject_model E tracker).reprojectAxisJacobFn (light_axis pdl)
    (H_k.map (fun _ => (0 : F))) (x_t.take 7)
    ((tracker.so.sensor_locations.drop (pdl.sensor_id * 3)).take 3)
    (E.InvertPoseRtn (tracker.so.ctx.bsd pdl.lh).Pose)
    ((tracker.so.ctx.bsd pdl.lh).fcal (light_axis pdl))

/-- The tracker that `integrate_light` passes to `report_state`: the kernel's
result, the statistics updated, the rotation normalized. -/
def integrate_light_updated (E : Env F) (tracker : SurviveKalmanTracker F)
    (data : PoserDataLight F) : SurviveKalmanTracker F :=
  let time := timecode_seconds tracker.so data.hdr
  let r := E.survive_kalman_predict_update_state_extended time tracker.model [data.angle]
    [tracker.light_var] (map_light_data E tracker data)
  normalize_model E { tracker with
    model := r.1
    stats := { tracker.stats with
      lightcap_total_error := tracker.stats.lightcap_total_error + r.2
      lightcap_count := tracker.stats.lightcap_count + 1 } }

/-- The rational that stands for a non-finite scalar in `degenerate_env`. -/
def sample_nonfinite : ℚ := 1000000000000

/-- The sample environment with a degenerate projection: the Jacobian of the
reprojection writes a non-finite first entry, which `isfinite` rejects. -/
def degenerate_env : Env ℚ :=
  { sample_env with
    isfinite := fun a => decide (a ≠ sample_nonfinite)
    survive_reproject_model :=
      { reprojectAxisFullFn := fun _ _ _ _ _ => 0
        reprojectAxisJacobFn := fun _ out _ _ _ _ => out.set 0 sample_nonfinite } }

/-- The quadratic form `v^T Q v` of a flat 19 x 19 array `Q` and a vector `v` of
19 scalars. -/
def quad_form (Q v : List F) : F :=
  ((List.range SURVIVE_MODEL_STATE_CNT).map fun i =>
    ((List.range SURVIVE_MODEL_STATE_CNT).map fun j =>
      v.getD i 0 * entry Q i j * v.getD j 0).sum).sum

/-- The entrywise sum `P + Q` of two flat arrays. -/
def mat_add (P Q : List F) : List F :=
  List.zipWith (fun a b => a + b) P Q


/-! ## Array lemmas -/

theorem getD_set_eq {α : Type} (l : List α) (i k : Nat) (a d : α) :
    (l.set i a).getD k d = if i = k ∧ k < l.length then a else l.getD k d := by
  simp only [List.getD_eq_getElem?_getD, List.getElem?_set]
  by_cases h : i = k
  · subst h
    by_cases h2 : i < l.length
    · simp [h2]
    · simp [h2, List.getElem?_eq_none (not_lt.mp h2)]
  · simp [h]

theorem arr_eye_diag_inner_length {α : Type} (val : Nat → α) (cols i : Nat) (c : Nat)
    (m : List α) :
    ((List.range c).foldl (fun m j => m.set (j * cols + i) (val j)) m).length = m.length := by
  induction c with
  | zero => simp
  | succ c ih => simp [List.range_succ, List.foldl_append, ih]

theorem arr_eye_diag_inner_getD {α : Type} (val : Nat → α) (cols i : Nat) (hi : i < cols)
    (c : Nat) (m : List α) (k : Nat) (d : α) :
    ((List.range c).foldl (fun m j => m.set (j * cols + i) (val j)) m).getD k d
      = if k % cols = i ∧ k / cols < c ∧ k < m.length then val (k / cols) else m.getD k d := by
  induction c with
  | zero => simp
  | succ c ih =>
    rw [List.range_succ, List.foldl_append]
    simp only [List.foldl_cons, List.foldl_nil]
    rw [getD_set_eq, ih, arr_eye_diag_inner_length]
    have hpos : 0 < cols := Nat.lt_of_le_of_lt (Nat.zero_le _) hi
    by_cases hk : c * cols + i = k
    · subst hk
      have h1 : (c * cols + i) % cols = i := by
        rw [Nat.add_comm, Nat.add_mul_mod_self_right, Nat.mod_eq_of_lt hi]
      have h2 : (c * cols + i) / cols = c := by
        rw [Nat.add_comm, Nat.add_mul_div_right _ _ hpos, Nat.div_eq_of_lt hi, Nat.zero_add]
      by_cases hl : c * cols + i < m.length
      · simp [h1, h2, hl]
      · simp [h1, h2, hl]
    · have h3 : ¬ (k % cols = i ∧ k / cols = c) := by
        rintro ⟨ha, hb⟩
        apply hk
        rw [← ha, ← hb, Nat.mul_comm]
        exact Nat.div_add_mod k cols
      by_cases h4 : k % cols = i
      · have h5 : k / cols ≠ c := fun hb => h3 ⟨h4, hb⟩
        have h6 : k / cols < c + 1 ↔ k / cols < c := by omega
        simp [hk, h4, h6]
      · simp [hk, h4]

theorem arr_eye_diag_length (m : List F) (rows cols : Nat) (v : Option (List F)) :
    (arr_eye_diag m rows cols v).length = m.length := by
  unfold arr_eye_diag
  induction rows with
  | zero => simp
  | succ r ih =>
    rw [List.range_succ, List.foldl_append]
    simp only [List.foldl_cons, List.foldl_nil]
    rw [arr_eye_diag_inner_length (eye_diag_value v r), ih]

theorem arr_eye_diag_getD (m : List F) (rows cols : Nat) (v : Option (List F))
    (hr : rows ≤ cols) (k : Nat) (d : F) :
    (arr_eye_diag m rows cols v).getD k d
      = if k % cols < rows ∧ k / cols < cols ∧ k < m.length then
          eye_diag_value v (k % cols) (k / cols)
        else m.getD k d := by
  unfold arr_eye_diag
  induction rows with
  | zero => simp
  | succ r ih =>
    rw [List.range_succ, List.foldl_append]
    simp only [List.foldl_cons, List.foldl_nil]
    have hlen := arr_eye_diag_length m r cols v
    unfold arr_eye_diag at hlen
    rw [arr_eye_diag_inner_getD (eye_diag_value v r) cols r (by omega), ih (by omega), hlen]
    by_cases h1 : k % cols = r
    · subst h1
      have h2 : ¬ (k % cols < k % cols) := lt_irrefl _
      by_cases h3 : k / cols < cols ∧ k < m.length
      · simp [h3]
      · have h4 : ¬ (k % cols < k % cols + 1 ∧ k / cols < cols ∧ k < m.length) :=
          fun h => h3 h.2
        simp [h3, h4]
    · have h5 : k % cols < r + 1 ↔ k % cols < r := by omega
      simp [h1, h5]

/-! ## The process-noise matrix -/

set_option maxHeartbeats 4000000 in
theorem model_q_fn_lower_eq_upper (tracker : SurviveKalmanTracker F) (t : F) (x : List F)
    (i j : Nat) (hi : i < 19) (hj : j < i) :
    (model_q_fn tracker t x).getD (j + i * 19) 0 = (model_q_fn tracker t x).getD (i + j * 19) 0 := by
  interval_cases i <;> interval_cases j <;> rfl

/-- C3: the matrix written by `model_q_fn` is symmetric, `Q[i][j] = Q[j][i]` for
all `i, j < 19`, for every time step, state and tracker (so for every setting of
the process weights), and the symmetry assertion at the end of `model_q_fn`
holds. -/
theorem model_q_fn_symmetric (tracker : SurviveKalmanTracker F) (t : F) (x : List F) :
    (∀ i j : Fin 19, entry (model_q_fn tracker t x) i j = entry (model_q_fn tracker t x) j i)
      ∧ model_q_fn_assertion tracker t x = true := by
  constructor
  · intro i j
    unfold entry SURVIVE_MODEL_STATE_CNT
    rcases lt_trichotomy (i : Nat) (j : Nat) with h | h | h
    · exact (model_q_fn_lower_eq_upper tracker t x j i j.isLt h).symm
    · rw [h]
    · exact model_q_fn_lower_eq_upper tracker t x i j i.isLt h
  · unfold model_q_fn_assertion SURVIVE_MODEL_STATE_CNT
    rw [List.all_eq_true]
    intro i hi
    rw [List.all_eq_true]
    intro j hj
    rw [List.mem_range] at hi hj
    exact decide_eq_true (model_q_fn_lower_eq_upper tracker t x i j hi hj)

set_option maxRecDepth 100000 in
/-- C4: the positional block of `model_q_fn` is the triple-integrator reference
on each axis `k`: `Q[k][k] = w_acc t^5/20 + w_vel t^3/3 + w_pos t`,
`Q[k][7+k] = w_acc t^4/8 + w_vel t^2/2`, `Q[k][13+k] = w_acc t^3/6`,
`Q[7+k][7+k] = w_acc t^3/3 + w_vel t`, `Q[7+k][13+k] = w_acc t^2/2`,
`Q[13+k][13+k] = w_acc t`; and every entry between two different axes inside
the index set 0..2, 7..9, 13..15 is zero. -/
theorem model_q_fn_positional_block (tracker : SurviveKalmanTracker F) (t : F) (x : List F) :
    (∀ k : Fin 3,
      entry (model_q_fn tracker t x) k k
          = tracker.process_weight_acc * t ^ 5 / 20 + tracker.process_weight_vel * t ^ 3 / 3
            + tracker.process_weight_pos * t
        ∧ entry (model_q_fn tracker t x) k (7 + k)
          = tracker.process_weight_acc * t ^ 4 / 8 + tracker.process_weight_vel * t ^ 2 / 2
        ∧ entry (model_q_fn tracker t x) k (13 + k) = tracker.process_weight_acc * t ^ 3 / 6
        ∧ entry (model_q_fn tracker t x) (7 + k) (7 + k)
          = tracker.process_weight_acc * t ^ 3 / 3 + tracker.process_weight_vel * t
        ∧ entry (model_q_fn tracker t x) (7 + k) (13 + k)
          = tracker.process_weight_acc * t ^ 2 / 2
        ∧ entry (model_q_fn tracker t x) (13 + k) (13 + k) = tracker.process_weight_acc * t)
      ∧ (∀ a b k l : Fin 3, k ≠ l →
          entry (model_q_fn tracker t x) (positional_offset a + k) (positional_offset b + l)
            = 0) := by
  constructor
  · intro k
    fin_cases k <;>
    · simp only [entry, model_q_fn, SURVIVE_MODEL_STATE_CNT, List.getD_cons_succ,
        List.getD_cons_zero, Nat.reduceMul, Nat.reduceAdd, Fin.zero_eta, Fin.mk_one,
        Fin.reduceFinMk, Fin.val_zero, Fin.val_one, Fin.val_two, Fin.isValue]
      refine ⟨?_, ?_, ?_, ?_, ?_, ?_⟩ <;> first | trivial | ring
  · intro a b k l
    fin_cases a <;> fin_cases b <;> fin_cases k <;> fin_cases l <;>
      first
      | (intro _; rfl)
      | (intro h; exact absurd rfl h)

set_option maxRecDepth 100000 in
/-- C5: the rotational block of `model_q_fn`.  With `s_w = w_ang_vel`,
`s_f = s_w t^3/12`, `s_s = s_w t^2/4`, `q_i = x[3+i]` and
`q2sum = q_0^2 + q_1^2 + q_2^2 + q_3^2`: `Q[3+i][3+i] = w_rot t + s_f (q2sum - q_i^2)`,
`Q[3+i][3+j] = -s_f q_i q_j` for `i ≠ j`, the block `Q[3..6][10..12]` is `s_s` times the
rows `(-qx,-qy,-qz)`, `(qw,-qz,qy)`, `(qz,qw,-qx)`, `(-qy,qx,qw)`, and
`Q[10+k][10+l]` is `s_w t` for `k = l` and zero otherwise. -/
theorem model_q_fn_rotational_block (tracker : SurviveKalmanTracker F) (t : F) (x : List F) :
    (∀ i : Fin 4, entry (model_q_fn tracker t x) (3 + i) (3 + i)
        = tracker.process_weight_rotation * t
          + tracker.process_weight_ang_velocity * t ^ 3 / 12
            * (x.getD 3 0 ^ 2 + x.getD 4 0 ^ 2 + x.getD 5 0 ^ 2 + x.getD 6 0 ^ 2
                - x.getD (3 + i) 0 ^ 2))
      ∧ (∀ i j : Fin 4, i ≠ j → entry (model_q_fn tracker t x) (3 + i) (3 + j)
        = -(tracker.process_weight_ang_velocity * t ^ 3 / 12) * x.getD (3 + i) 0
            * x.getD (3 + j) 0)
      ∧ (entry (model_q_fn tracker t x) 3 10
            = tracker.process_weight_ang_velocity * t ^ 2 / 4 * -x.getD 4 0
        ∧ entry (model_q_fn tracker t x) 3 11
            = tracker.process_weight_ang_velocity * t ^ 2 / 4 * -x.getD 5 0
        ∧ entry (model_q_fn tracker t x) 3 12
            = tracker.process_weight_ang_velocity * t ^ 2 / 4 * -x.getD 6 0
        ∧ entry (model_q_fn tracker t x) 4 10
            = tracker.process_weight_ang_velocity * t ^ 2 / 4 * x.getD 3 0
        ∧ entry (model_q_fn tracker t x) 4 11
            = tracker.process_weight_ang_velocity * t ^ 2 / 4 * -x.getD 6 0
        ∧ entry (model_q_fn tracker t x) 4 12
            = tracker.process_weight_ang_velocity * t ^ 2 / 4 * x.getD 5 0
        ∧ entry (model_q_fn tracker t x) 5 10
            = tracker.process_weight_ang_velocity * t ^ 2 / 4 * x.getD 6 0
        ∧ entry (model_q_fn tracker t x) 5 11
            = tracker.process_weight_ang_velocity * t ^ 2 / 4 * x.getD 3 0
        ∧ entry (model_q_fn tracker t x) 5 12
            = tracker.process_weight_ang_velocity * t ^ 2 / 4 * -x.getD 4 0
        ∧ entry (model_q_fn tracker t x) 6 10
            = tracker.process_weight_ang_velocity * t ^ 2 / 4 * -x.getD 5 0
        ∧ entry (model_q_fn tracker t x) 6 11
            = tracker.process_weight_ang_velocity * t ^ 2 / 4 * x.getD 4 0
        ∧ entry (model_q_fn tracker t x) 6 12
            = tracker.process_weight_ang_velocity * t ^ 2 / 4 * x.getD 3 0)
      ∧ (∀ k l : Fin 3, entry (model_q_fn tracker t x) (10 + k) (10 + l)
          = if k = l then tracker.process_weight_ang_velocity * t else 0) := by
  refine ⟨?_, ?_, ?_, ?_⟩
  · intro i
    fin_cases i <;>
    · simp only [entry, model_q_fn, SURVIVE_MODEL_STATE_CNT, Rot, List.getD_cons_succ,
        List.getD_cons_zero, Nat.reduceMul, Nat.reduceAdd, Fin.zero_eta, Fin.mk_one,
        Fin.reduceFinMk, Fin.val_zero, Fin.val_one, Fin.val_two, Fin.isValue]
      ring
  · intro i j
    fin_cases i <;> fin_cases j <;>
      first
      | (intro h; exact absurd rfl h)
      | (intro _
         simp only [entry, model_q_fn, SURVIVE_MODEL_STATE_CNT, Rot, List.getD_cons_succ,
           List.getD_cons_zero, Nat.reduceMul, Nat.reduceAdd, Fin.zero_eta, Fin.mk_one,
           Fin.reduceFinMk, Fin.val_zero, Fin.val_one, Fin.val_two, Fin.isValue]
         ring)
  · simp only [entry, model_q_fn, SURVIVE_MODEL_STATE_CNT, Rot, List.getD_cons_succ,
      List.getD_cons_zero, Nat.reduceMul, Nat.reduceAdd]
    refine ⟨?_, ?_, ?_, ?_, ?_, ?_, ?_, ?_, ?_, ?_, ?_, ?_⟩ <;> ring
  · intro k l
    fin_cases k <;> fin_cases l <;>
    · simp only [entry, model_q_fn, SURVIVE_MODEL_STATE_CNT, List.getD_cons_succ,
        List.getD_cons_zero, Nat.reduceMul, Nat.reduceAdd, Fin.zero_eta, Fin.mk_one,
        Fin.reduceFinMk, Fin.val_zero, Fin.val_one, Fin.val_two, Fin.isValue]
      simp

set_option maxHeartbeats 4000000 in
/-- C6: the gyro-bias diagonal `Q[16][16]`, `Q[17][17]`, `Q[18][18]` of `model_q_fn`
is `1e-10 t`, and every entry that is neither inside the positional block
(both indices among 0..2, 7..9, 13..15), nor inside the rotational block (both
indices among 3..6, 10..12), nor on the gyro-bias diagonal is zero. -/
theorem model_q_fn_gyro_bias_and_zero_pattern (tracker : SurviveKalmanTracker F) (t : F)
    (x : List F) :
    (∀ k : Fin 3, entry (model_q_fn tracker t x) (16 + k) (16 + k) = 1e-10 * t)
      ∧ (∀ i j : Fin 19,
          ¬ (positional_index i = true ∧ positional_index j = true) →
          ¬ (rotational_index i = true ∧ rotational_index j = true) →
          ¬ (gyro_bias_index i = true ∧ i = j) →
          entry (model_q_fn tracker t x) i j = 0) := by
  constructor
  · intro k
    fin_cases k <;> rfl
  · intro i j
    fin_cases i <;> fin_cases j <;>
      first
      | (intro _ _ _; rfl)
      | (intro h _ _; exact absurd (by decide) h)
      | (intro _ h _; exact absurd (by decide) h)
      | (intro _ _ h; exact absurd (by decide) h)

/-- C6, at the entry between position x (index 0) and rotation qw (index 3). -/
theorem model_q_fn_gyro_bias_and_zero_pattern_witness :
    entry (model_q_fn fresh_tracker (1 / 100) fresh_tracker.model.state) (0 : Fin 19)
        (3 : Fin 19) = 0 :=
  (model_q_fn_gyro_bias_and_zero_pattern fresh_tracker (1 / 100)
    fresh_tracker.model.state).2 0 3 (by decide) (by decide) (by decide)

/-! ## The state-transition Jacobian at zero elapsed time -/

/-- C7: for `t = 0`, `model_predict_jac` writes the 19x19 identity into `f_out`,
whatever the state `x0`: entry `(i, j)` is 1 when `i = j` and 0 otherwise.
The buffer `f_out` holds at least 19 * 19 scalars. -/
theorem model_predict_jac_zero_identity (E : Env F) (f_out x0 : List F)
    (hlen : SURVIVE_MODEL_STATE_CNT * SURVIVE_MODEL_STATE_CNT ≤ f_out.length) (i j : Fin 19) :
    entry (model_predict_jac E 0 f_out x0) i j = if i = j then 1 else 0 := by
  unfold model_predict_jac entry
  rw [if_pos rfl, arr_eye_diag_getD _ _ _ _ (le_refl _)]
  unfold SURVIVE_MODEL_STATE_CNT at hlen ⊢
  have hi := i.isLt
  have hj := j.isLt
  have h1 : ((j : Nat) + (i : Nat) * 19) % 19 = j := by omega
  have h2 : ((j : Nat) + (i : Nat) * 19) / 19 = i := by omega
  have h3 : (j : Nat) + (i : Nat) * 19 < f_out.length := by omega
  rw [h1, h2, if_pos ⟨hj, hi, h3⟩]
  unfold eye_diag_value
  by_cases h : i = j
  · subst h
    simp
  · have h' : (j : Nat) ≠ (i : Nat) := fun e => h (Fin.ext e.symm)
    simp [h, h']

/-- C7, on a concrete buffer: a 361-entry buffer filled with 7 becomes the
identity, read here at the diagonal entry (4, 4). -/
theorem model_predict_jac_zero_identity_witness :
    SURVIVE_MODEL_STATE_CNT * SURVIVE_MODEL_STATE_CNT ≤ (List.replicate 361 (7 : ℚ)).length
      ∧ entry (model_predict_jac sample_env 0 (List.replicate 361 (7 : ℚ)) []) (4 : Fin 19)
          (4 : Fin 19) = if (4 : Fin 19) = 4 then 1 else 0 :=
  ⟨by rw [List.length_replicate]; decide,
    model_predict_jac_zero_identity sample_env (List.replicate 361 (7 : ℚ)) []
      (by rw [List.length_replicate]; decide) 4 4⟩

/-! ## Gates of the entry points -/

/-- C9: while the time cursor is 0, `integrate_imu` does nothing: it returns the
tracker as it was (state, covariance, time and all statistics) and makes no
call to the kernel or to the pose consumer. -/
theorem integrate_imu_before_first_observation (E : Env F) (tracker : SurviveKalmanTracker F)
    (data : PoserDataIMU F) (h0 : tracker.model.t = 0) :
    survive_kalman_tracker_integrate_imu E tracker data = (tracker, []) := by
  unfold survive_kalman_tracker_integrate_imu
  rw [if_pos h0]

/-- C9, on the freshly initialized tracker. -/
theorem integrate_imu_before_first_observation_witness :
    fresh_tracker.model.t = 0
      ∧ survive_kalman_tracker_integrate_imu sample_env fresh_tracker (imu_sample 10)
          = (fresh_tracker, []) :=
  ⟨by decide!, integrate_imu_before_first_observation sample_env fresh_tracker (imu_sample 10)
    (by decide!)⟩

/-- C8: with `t != 0` and a sample time more than 0.01 before `t`,
`integrate_imu` returns the tracker with `late_imu_dropped` incremented by one
and nothing else changed (state, covariance, time, other statistics), and makes
no call to the kernel or to the pose consumer. -/
theorem integrate_imu_late_drop (E : Env F) (tracker : SurviveKalmanTracker F)
    (data : PoserDataIMU F) (h0 : tracker.model.t ≠ 0)
    (hlate : timecode_seconds tracker.so data.hdr - tracker.model.t < -0.01) :
    survive_kalman_tracker_integrate_imu E tracker data
      = ({ tracker with
            stats := { tracker.stats with
              late_imu_dropped := tracker.stats.late_imu_dropped + 1 } }, []) := by
  unfold survive_kalman_tracker_integrate_imu
  rw [if_neg h0]
  simp only []
  rw [if_pos hlate]

/-- C8, at `t = 5.0` with a sample stamped 4.98. -/
theorem integrate_imu_late_drop_witness :
    (tracker_at 5).model.t ≠ 0
      ∧ timecode_seconds (tracker_at 5).so (imu_sample 4980).hdr - (tracker_at 5).model.t < -0.01
      ∧ survive_kalman_tracker_integrate_imu sample_env (tracker_at 5) (imu_sample 4980)
          = ({ tracker_at 5 with
                stats := { (tracker_at 5).stats with
                  late_imu_dropped := (tracker_at 5).stats.late_imu_dropped + 1 } }, []) :=
  ⟨by decide!, by decide!,
    integrate_imu_late_drop sample_env (tracker_at 5) (imu_sample 4980) (by decide!)
      (by decide!)⟩

/-- C10: with `t != 0` and an observation time more than 0.1 before `t`,
`integrate_observation` returns the tracker with `late_light_dropped`
incremented by one and nothing else changed (state, covariance, time,
`obs_count`, `obs_total_error`), and makes no call to the kernel or to the pose
consumer. -/
theorem integrate_observation_late_drop (E : Env F) (pd : PoserData)
    (tracker : SurviveKalmanTracker F) (pose : List F) (R : Option (List F))
    (h0 : tracker.model.t ≠ 0)
    (hlate : timecode_seconds tracker.so pd - tracker.model.t < -0.1) :
    survive_kalman_tracker_integrate_observation E pd tracker pose R
      = ({ tracker with
            stats := { tracker.stats with
              late_light_dropped := tracker.stats.late_light_dropped + 1 } }, []) := by
  have h1 : timecode_seconds tracker.so pd - tracker.model.t < 0 := by
    have : (-0.1 : F) < 0 := by norm_num
    exact lt_trans hlate this
  have h2 : ¬ (timecode_seconds tracker.so pd - tracker.model.t > -0.1) := not_lt.mpr hlate.le
  unfold survive_kalman_tracker_integrate_observation
  simp only [if_neg h0]
  rw [if_pos h1, if_neg h2]

/-- C10, at `t = 5.0` with an observation stamped 4.8. -/
theorem integrate_observation_late_drop_witness :
    (tracker_at 5).model.t ≠ 0
      ∧ timecode_seconds (tracker_at 5).so (obs_header 4800) - (tracker_at 5).model.t < -0.1
      ∧ survive_kalman_tracker_integrate_observation sample_env (obs_header 4800) (tracker_at 5)
          [1, 2, 3, 1, 0, 0, 0] none
          = ({ tracker_at 5 with
                stats := { (tracker_at 5).stats with
                  late_light_dropped := (tracker_at 5).stats.late_light_dropped + 1 } }, []) :=
  ⟨by decide!, by decide!,
    integrate_observation_late_drop sample_env (obs_header 4800) (tracker_at 5)
      [1, 2, 3, 1, 0, 0, 0] none (by decide!) (by decide!)⟩

/-! ## Times handed to the kernel -/

theorem handed_times_append {α : Type} (a b : List (Event α)) :
    handed_times (a ++ b) = handed_times a ++ handed_times b := by
  induction a with
  | nil => rfl
  | cons e es ih => cases e <;> simp [handed_times, ih]

theorem report_state_of_assertion_fails (E : Env F) (pd : PoserData)
    (tracker : SurviveKalmanTracker F) (ha : ¬ report_state_assertion pd tracker) :
    survive_kalman_tracker_report_state E pd tracker = (tracker, [Event.abort]) := by
  have hc : timecode_seconds tracker.so pd < tracker.model.t
      ∧ ¬ (tracker.model.t - timecode_seconds tracker.so pd < 1) := by
    unfold report_state_assertion at ha
    exact Classical.not_imp.mp ha
  unfold survive_kalman_tracker_report_state
  simp only []
  rw [if_pos hc]

theorem report_state_of_assertion (E : Env F) (pd : PoserData)
    (tracker : SurviveKalmanTracker F) (ha : report_state_assertion pd tracker) :
    survive_kalman_tracker_report_state E pd tracker
      = (if !survive_kalman_tracker_position_found tracker then
          (tracker, (survive_kalman_tracker_predict E tracker (report_state_time pd tracker)
            (List.replicate 7 0)).2)
        else
          (tracker, (survive_kalman_tracker_predict E tracker (report_state_time pd tracker)
              (List.replicate 7 0)).2
            ++ (survive_kalman_tracker_velocity E tracker).2
            ++ [Event.poser_pose_func_with_velocity
                (survive_kalman_tracker_predict E tracker (report_state_time pd tracker)
                  (List.replicate 7 0)).1
                (survive_kalman_tracker_velocity E tracker).1])) := by
  have hc : ¬ (timecode_seconds tracker.so pd < tracker.model.t
      ∧ ¬ (tracker.model.t - timecode_seconds tracker.so pd < 1)) := by
    rintro ⟨h1, h2⟩
    exact h2 (ha h1)
  unfold survive_kalman_tracker_report_state
  simp only []
  rw [if_neg hc]

theorem report_state_fst (E : Env F) (pd : PoserData) (tracker : SurviveKalmanTracker F) :
    (survive_kalman_tracker_report_state E pd tracker).1 = tracker := by
  by_cases ha : report_state_assertion pd tracker
  · rw [report_state_of_assertion E pd tracker ha]
    split <;> rfl
  · rw [report_state_of_assertion_fails E pd tracker ha]

theorem handed_times_report_state (E : Env F) (pd : PoserData)
    (tracker : SurviveKalmanTracker F) :
    handed_times (survive_kalman_tracker_report_state E pd tracker).2 = [] := by
  by_cases ha : report_state_assertion pd tracker
  · rw [report_state_of_assertion E pd tracker ha]
    unfold survive_kalman_tracker_predict survive_kalman_tracker_velocity
    by_cases h0 : tracker.model.t = 0 <;>
      by_cases hp : survive_kalman_tracker_position_found tracker = true <;>
      simp [h0, hp, handed_times]
  · rw [report_state_of_assertion_fails E pd tracker ha]
    rfl

theorem handed_times_integrate_light (E : Env F) (tracker : SurviveKalmanTracker F)
    (data : PoserDataLight F) (τ : F)
    (hτ : τ ∈ handed_times (survive_kalman_tracker_integrate_light E tracker data).2) :
    τ = timecode_seconds tracker.so data.hdr := by
  unfold survive_kalman_tracker_integrate_light at hτ
  by_cases hp : survive_kalman_tracker_position_found tracker = true
  · by_cases hs : (tracker.so.ctx.bsd data.lh).PositionSet = true
    · by_cases hv : tracker.light_var ≥ 0
      · simpa [hp, hs, hv, handed_times, handed_times_report_state] using hτ
      · simp [hp, hs, hv, handed_times] at hτ
    · simp [hp, hs, handed_times] at hτ
  · simp [hp, handed_times] at hτ

theorem integrate_observation_update_model (E : Env F) (pd : PoserData)
    (tracker : SurviveKalmanTracker F) (time : F) (pose : List F)
    (hv : tracker.obs_pos_var ≥ 0 ∧ tracker.obs_rot_var ≥ 0) :
    (integrate_observation_update E pd tracker time pose).1.model
      = (E.survive_kalman_predict_update_state time tracker.model (pose.take 7) pose_H
          [tracker.obs_pos_var, tracker.obs_pos_var, tracker.obs_pos_var, tracker.obs_rot_var,
            tracker.obs_rot_var, tracker.obs_rot_var, tracker.obs_rot_var]).1 := by
  unfold integrate_observation_update survive_imu_integrate_pose
  rw [if_pos hv]
  simp only [report_state_fst]

/-- C1, evaluated: the freshly initialized tracker integrates the pose
observation `((1,2,3), (1.01,0,0,0))` stamped 1.0 (one kernel update, counted in
`obs_count`); when `integrate_observation` returns, the tracker's quaternion is
what the kernel left, `(101001/100001, 0, 0, 0)`, whose squared norm is not 1. -/
theorem integrate_observation_quaternion_not_unit :
    (survive_kalman_tracker_integrate_observation sample_env (obs_header 1000) fresh_tracker
        [1, 2, 3, 1.01, 0, 0, 0] none).1.stats.obs_count = 1
      ∧ Rot (survive_kalman_tracker_integrate_observation sample_env (obs_header 1000)
          fresh_tracker [1, 2, 3, 1.01, 0, 0, 0] none).1.model.state
        = [101001 / 100001, 0, 0, 0]
      ∧ quat_norm_sq (Rot (survive_kalman_tracker_integrate_observation sample_env
          (obs_header 1000) fresh_tracker [1, 2, 3, 1.01, 0, 0, 0] none).1.model.state) ≠ 1 := by
  decide!


/-! ## Observations inside the late window -/

theorem integrate_observation_window_events (E : Env F) (pd : PoserData)
    (tracker : SurviveKalmanTracker F) (pose : List F) (R : Option (List F))
    (h0 : tracker.model.t ≠ 0)
    (hlo : -0.1 < timecode_seconds tracker.so pd - tracker.model.t)
    (hv : tracker.obs_pos_var ≥ 0 ∧ tracker.obs_rot_var ≥ 0) :
    handed_times (survive_kalman_tracker_integrate_observation E pd tracker pose R).2
      = [timecode_seconds tracker.so pd] := by
  have hupd : handed_times (integrate_observation_update E pd tracker
      (timecode_seconds tracker.so pd) pose).2 = [timecode_seconds tracker.so pd] := by
    unfold integrate_observation_update survive_imu_integrate_pose
    simp [hv, handed_times, handed_times_append, handed_times_report_state]
  unfold survive_kalman_tracker_integrate_observation
  simp only [if_neg h0]
  by_cases h1 : timecode_seconds tracker.so pd - tracker.model.t < 0
  · rw [if_pos h1, if_pos hlo]
    exact hupd
  · rw [if_neg h1]
    exact hupd

/-- C11, evaluated: at `t = 5.0` an observation stamped 4.95 lies inside the
window `-0.1 < timestamp - t < 0` and is integrated; the time handed to the
kernel's predict+update is the observation's 4.95, not the tracker's `t`. -/
theorem integrate_observation_hands_unclamped_time :
    (tracker_at 5).model.t ≠ 0
      ∧ -0.1 < timecode_seconds (tracker_at 5).so (obs_header 4950) - (tracker_at 5).model.t
      ∧ timecode_seconds (tracker_at 5).so (obs_header 4950) - (tracker_at 5).model.t < 0
      ∧ handed_times (survive_kalman_tracker_integrate_observation sample_env (obs_header 4950)
          (tracker_at 5) [1, 2, 3, 1, 0, 0, 0] none).2 = [4.95]
      ∧ handed_times (survive_kalman_tracker_integrate_observation sample_env (obs_header 4950)
          (tracker_at 5) [1, 2, 3, 1, 0, 0, 0] none).2 ≠ [(tracker_at 5).model.t] := by
  decide!

/-! ## The measurement noise handed to the kernel -/

theorem handed_noise_append {α : Type} (a b : List (Event α)) :
    handed_noise (a ++ b) = handed_noise a ++ handed_noise b := by
  induction a with
  | nil => rfl
  | cons e es ih => cases e <;> simp [handed_noise, ih]

theorem handed_noise_report_state (E : Env F) (pd : PoserData)
    (tracker : SurviveKalmanTracker F) :
    handed_noise (survive_kalman_tracker_report_state E pd tracker).2 = [] := by
  by_cases ha : report_state_assertion pd tracker
  · rw [report_state_of_assertion E pd tracker ha]
    unfold survive_kalman_tracker_predict survive_kalman_tracker_velocity
    by_cases h0 : tracker.model.t = 0 <;>
      by_cases hp : survive_kalman_tracker_position_found tracker = true <;>
      simp [h0, hp, handed_noise]
  · rw [report_state_of_assertion_fails E pd tracker ha]
    rfl

theorem integrate_observation_ignores_R (E : Env F) (pd : PoserData)
    (tracker : SurviveKalmanTracker F) (pose : List F) (R : Option (List F)) :
    survive_kalman_tracker_integrate_observation E pd tracker pose R
      = survive_kalman_tracker_integrate_observation E pd tracker pose none := rfl

/-- C13, evaluated: the freshly initialized tracker integrates an observation
for which the caller supplies `R = (1,1,1,1,1,1,1)`; the noise handed to the
kernel is the one built from `obs_pos_var = 0.02` and `obs_rot_var = 0.01`, not
the caller's. -/
theorem integrate_observation_hands_own_noise :
    handed_noise (survive_kalman_tracker_integrate_observation sample_env (obs_header 1000)
        fresh_tracker [1, 2, 3, 1, 0, 0, 0] (some [1, 1, 1, 1, 1, 1, 1])).2
        = [[0.02, 0.02, 0.02, 0.01, 0.01, 0.01, 0.01]]
      ∧ handed_noise (survive_kalman_tracker_integrate_observation sample_env (obs_header 1000)
        fresh_tracker [1, 2, 3, 1, 0, 0, 0] (some [1, 1, 1, 1, 1, 1, 1])).2
        ≠ [[1, 1, 1, 1, 1, 1, 1]] := by
  decide!

/-- C14, counterexample: for the freshly initialized tracker (`obs_rot_var = 0.01`,
`obs_pos_var = 0.02`) the diagonal handed to the kernel is not
`(rot, rot, rot, rot, pos, pos, pos)`. -/
theorem integrate_observation_noise_not_rot_first :
    fresh_tracker.obs_rot_var = 0.01
      ∧ fresh_tracker.obs_pos_var = 0.02
      ∧ handed_noise (survive_kalman_tracker_integrate_observation sample_env (obs_header 1000)
          fresh_tracker [1, 2, 3, 1, 0, 0, 0] none).2
        = [[0.02, 0.02, 0.02, 0.01, 0.01, 0.01, 0.01]]
      ∧ handed_noise (survive_kalman_tracker_integrate_observation sample_env (obs_header 1000)
          fresh_tracker [1, 2, 3, 1, 0, 0, 0] none).2
        ≠ [[fresh_tracker.obs_rot_var, fresh_tracker.obs_rot_var, fresh_tracker.obs_rot_var,
            fresh_tracker.obs_rot_var, fresh_tracker.obs_pos_var, fresh_tracker.obs_pos_var,
            fresh_tracker.obs_pos_var]] := by
  decide!

/-- C14, amended: for every pose observation for which the caller supplies no
`R`, so that the tracker builds the measurement noise itself, and which is
integrated (both variances non-negative, and either `t = 0` or the time stamp
later than `t - 0.1`), the diagonal handed to the kernel is
`(pos, pos, pos, rot, rot, rot, rot)`: `obs_pos_var` on the first 3 entries and
`obs_rot_var` on the last 4.  The diagonal that `init` writes to `Obs_R` has the
other order, `(rot, rot, rot, rot, pos, pos, pos)`. -/
theorem integrate_observation_noise_pos_first (E : Env F) (pd : PoserData)
    (tracker : SurviveKalmanTracker F) (pose : List F) (so : SurviveObject F)
    (hv : tracker.obs_pos_var ≥ 0 ∧ tracker.obs_rot_var ≥ 0)
    (hgate : tracker.model.t = 0
      ∨ -0.1 < timecode_seconds tracker.so pd - tracker.model.t) :
    handed_noise (survive_kalman_tracker_integrate_observation E pd tracker pose none).2
        = [[tracker.obs_pos_var, tracker.obs_pos_var, tracker.obs_pos_var, tracker.obs_rot_var,
            tracker.obs_rot_var, tracker.obs_rot_var, tracker.obs_rot_var]]
      ∧ ∀ i : Fin 7, (survive_kalman_tracker_init E so).Obs_R.getD (i * 7 + i) 0
          = ([(survive_kalman_tracker_init E so).obs_rot_var,
              (survive_kalman_tracker_init E so).obs_rot_var,
              (survive_kalman_tracker_init E so).obs_rot_var,
              (survive_kalman_tracker_init E so).obs_rot_var,
              (survive_kalman_tracker_init E so).obs_pos_var,
              (survive_kalman_tracker_init E so).obs_pos_var,
              (survive_kalman_tracker_init E so).obs_pos_var] : List F).getD i 0 := by
  constructor
  · have hupd : ∀ (tr : SurviveKalmanTracker F) (time : F),
        tr.obs_pos_var ≥ 0 ∧ tr.obs_rot_var ≥ 0 →
        handed_noise (integrate_observation_update E pd tr time pose).2
          = [[tr.obs_pos_var, tr.obs_pos_var, tr.obs_pos_var, tr.obs_rot_var,
              tr.obs_rot_var, tr.obs_rot_var, tr.obs_rot_var]] := by
      intro tr time htr
      unfold integrate_observation_update survive_imu_integrate_pose
      simp [htr, handed_noise, handed_noise_append, handed_noise_report_state]
    unfold survive_kalman_tracker_integrate_observation
    by_cases h0 : tracker.model.t = 0
    · simp only [if_pos h0, sub_self, lt_irrefl, if_false]
      exact hupd _ _ hv
    · have hlo : -0.1 < timecode_seconds tracker.so pd - tracker.model.t := by
        rcases hgate with h | h
        · exact absurd h h0
        · exact h
      simp only [if_neg h0]
      by_cases h1 : timecode_seconds tracker.so pd - tracker.model.t < 0
      · rw [if_pos h1, if_pos hlo]
        exact hupd _ _ hv
      · rw [if_neg h1]
        exact hupd _ _ hv
  · intro i
    have hi := i.isLt
    have h1 : ((i : Nat) * 7 + i) % 7 = i := by omega
    have h2 : ((i : Nat) * 7 + i) / 7 = i := by omega
    simp only [survive_kalman_tracker_init, survive_kalman_tracker_config, zero_tracker]
    rw [arr_eye_diag_getD _ _ _ _ (le_refl _), h1, h2]
    have h3 : (i : Nat) * 7 + i < (List.replicate (7 * 7) (0 : F)).length := by
      rw [List.length_replicate]; omega
    rw [if_pos ⟨hi, hi, h3⟩]
    simp [eye_diag_value]

/-- C14 amended, on the freshly initialized tracker and an observation stamped
1.0 for which the caller supplies no `R`. -/
theorem integrate_observation_noise_pos_first_witness :
    (fresh_tracker.obs_pos_var ≥ 0 ∧ fresh_tracker.obs_rot_var ≥ 0)
      ∧ (fresh_tracker.model.t = 0
        ∨ -0.1 < timecode_seconds fresh_tracker.so (obs_header 1000) - fresh_tracker.model.t)
      ∧ handed_noise (survive_kalman_tracker_integrate_observation sample_env (obs_header 1000)
          fresh_tracker [1, 2, 3, 1, 0, 0, 0] none).2
        = [[fresh_tracker.obs_pos_var, fresh_tracker.obs_pos_var, fresh_tracker.obs_pos_var,
            fresh_tracker.obs_rot_var, fresh_tracker.obs_rot_var, fresh_tracker.obs_rot_var,
            fresh_tracker.obs_rot_var]] :=
  ⟨by decide!, by decide!,
    (integrate_observation_noise_pos_first sample_env (obs_header 1000) fresh_tracker
      [1, 2, 3, 1, 0, 0, 0] sample_so (by decide!) (by decide!)).1⟩

theorem handed_noise_integrate_imu (E : Env F) (tracker : SurviveKalmanTracker F)
    (data : PoserDataIMU F) (Rk : List F)
    (hR : Rk ∈ handed_noise (survive_kalman_tracker_integrate_imu E tracker data).2) :
    Rk = tracker.IMU_R := by
  unfold survive_kalman_tracker_integrate_imu at hR
  by_cases h0 : tracker.model.t = 0
  · simp [h0, handed_noise] at hR
  · by_cases hl : timecode_seconds tracker.so data.hdr - tracker.model.t < -0.01
    · simp [h0, hl, handed_noise] at hR
    · simp only [if_neg h0, if_neg hl, handed_noise_append, handed_noise_report_state,
        List.append_nil] at hR
      by_cases hu : (imu_use_gyro tracker || imu_use_accel tracker) = true
      · simpa [hu, handed_noise] using hR
      · simp [hu, handed_noise] at hR

/-- C15, evaluated: at `t = 5.0` with `P[0,0] = 1000` (accelerometer gated off)
and `gyro_var = 0.01`, an IMU sample stamped 5.001 is integrated.  The working
vector is `(1e5, 1e5, 1e5, 0.01, 0.01, 0.01)`, but the noise handed to the kernel
is the 6 x 6 array `tracker->IMU_R`, whose accelerometer diagonal is
`acc_var = 5e-5`, not the sentinel. -/
theorem integrate_imu_hands_IMU_R :
    (tracker_at 5).model.t ≠ 0
      ∧ (tracker_at 5).gyro_var ≥ 0
      ∧ (tracker_at 5).model.P.getD 0 0 ≥ 1
      ∧ imu_rotation_variance (tracker_at 5) = [1e5, 1e5, 1e5, 0.01, 0.01, 0.01]
      ∧ handed_noise (survive_kalman_tracker_integrate_imu sample_env (tracker_at 5)
          (imu_sample 5001)).2 = [(tracker_at 5).IMU_R]
      ∧ (tracker_at 5).IMU_R ≠ imu_rotation_variance (tracker_at 5)
      ∧ (tracker_at 5).IMU_R.length = 36
      ∧ (tracker_at 5).IMU_R.getD 0 0 = 5e-5
      ∧ (tracker_at 5).IMU_R.getD 7 0 = 5e-5
      ∧ (tracker_at 5).IMU_R.getD 14 0 = 5e-5 := by
  decide!

/-! ## The first observation -/

/-- C12, counterexample: the freshly initialized tracker (`t = 0`) with
`obs_pos_var = -1` receives an observation stamped 1.0; no time is handed to the
kernel, its predict+update is not invoked. -/
theorem integrate_observation_bootstrap_no_kernel_call :
    ({ fresh_tracker with obs_pos_var := -1 } : SurviveKalmanTracker ℚ).model.t = 0
      ∧ handed_times (survive_kalman_tracker_integrate_observation sample_env (obs_header 1000)
          { fresh_tracker with obs_pos_var := -1 } [1, 2, 3, 1, 0, 0, 0] none).2 = [] := by
  decide!

/-- C12, amended: on a tracker with `t = 0`, `integrate_observation` sets `t`
to the observation's time `ts` before the late gate, so `late_light_dropped`
stays as it was.  When `obs_pos_var` and `obs_rot_var` are non-negative, the
kernel's predict+update is invoked once, with time `ts` on the filter state
whose cursor is `ts` (elapsed time 0), and the tracker's filter state is the
kernel's result.  Otherwise no call is made and the tracker is returned with
`t = ts` and nothing else changed. -/
theorem integrate_observation_bootstrap (E : Env F) (pd : PoserData)
    (tracker : SurviveKalmanTracker F) (pose : List F) (R : Option (List F))
    (h0 : tracker.model.t = 0) :
    (survive_kalman_tracker_integrate_observation E pd tracker pose R).1.stats.late_light_dropped
        = tracker.stats.late_light_dropped
      ∧ (tracker.obs_pos_var ≥ 0 ∧ tracker.obs_rot_var ≥ 0 →
          handed_times (survive_kalman_tracker_integrate_observation E pd tracker pose R).2
              = [timecode_seconds tracker.so pd]
            ∧ (survive_kalman_tracker_integrate_observation E pd tracker pose R).1.model
              = (E.survive_kalman_predict_update_state (timecode_seconds tracker.so pd)
                  { tracker.model with t := timecode_seconds tracker.so pd } (pose.take 7)
                  pose_H
                  [tracker.obs_pos_var, tracker.obs_pos_var, tracker.obs_pos_var,
                    tracker.obs_rot_var, tracker.obs_rot_var, tracker.obs_rot_var,
                    tracker.obs_rot_var]).1)
      ∧ (¬ (tracker.obs_pos_var ≥ 0 ∧ tracker.obs_rot_var ≥ 0) →
          survive_kalman_tracker_integrate_observation E pd tracker pose R
            = ({ tracker with
                  model := { tracker.model with t := timecode_seconds tracker.so pd } }, [])) := by
  have hstep : survive_kalman_tracker_integrate_observation E pd tracker pose R
      = integrate_observation_update E pd
          { tracker with model := { tracker.model with t := timecode_seconds tracker.so pd } }
          (timecode_seconds tracker.so pd) pose := by
    unfold survive_kalman_tracker_integrate_observation
    simp only [if_pos h0, sub_self, lt_irrefl, if_false]
  rw [hstep]
  by_cases hv : tracker.obs_pos_var ≥ 0 ∧ tracker.obs_rot_var ≥ 0
  · refine ⟨?_, fun _ => ⟨?_, ?_⟩, fun h => absurd hv h⟩
    · unfold integrate_observation_update survive_imu_integrate_pose
      rw [if_pos hv]
      simp only [report_state_fst]
    · unfold integrate_observation_update survive_imu_integrate_pose
      simp [hv, handed_times, handed_times_append, handed_times_report_state]
    · exact integrate_observation_update_model E pd _ _ pose hv
  · refine ⟨?_, fun h => absurd h hv, fun _ => ?_⟩
    · unfold integrate_observation_update
      rw [if_neg hv]
    · unfold integrate_observation_update
      rw [if_neg hv]

/-- C12 amended, on the freshly initialized tracker and the observation
`((1,2,3), (1,0,0,0))` stamped 1.0: the kernel is handed the time 1.0, and with
a kernel that moves the cursor to the time it is given the tracker ends with
`t = 1.0`. -/
theorem integrate_observation_bootstrap_witness :
    fresh_tracker.model.t = 0
      ∧ (fresh_tracker.obs_pos_var ≥ 0 ∧ fresh_tracker.obs_rot_var ≥ 0)
      ∧ (survive_kalman_tracker_integrate_observation sample_env (obs_header 1000) fresh_tracker
          [1, 2, 3, 1, 0, 0, 0] none).1.stats.late_light_dropped
        = fresh_tracker.stats.late_light_dropped
      ∧ handed_times (survive_kalman_tracker_integrate_observation sample_env (obs_header 1000)
          fresh_tracker [1, 2, 3, 1, 0, 0, 0] none).2
        = [timecode_seconds fresh_tracker.so (obs_header 1000)]
      ∧ timecode_seconds fresh_tracker.so (obs_header 1000) = 1
      ∧ (survive_kalman_tracker_integrate_observation sample_env (obs_header 1000) fresh_tracker
          [1, 2, 3, 1, 0, 0, 0] none).1.model.t = 1 :=
  ⟨by decide!, by decide!,
    (integrate_observation_bootstrap sample_env (obs_header 1000) fresh_tracker
      [1, 2, 3, 1, 0, 0, 0] none (by decide!)).1,
    ((integrate_observation_bootstrap sample_env (obs_header 1000) fresh_tracker
      [1, 2, 3, 1, 0, 0, 0] none (by decide!)).2.1 (by decide!)).1,
    by decide!, by decide!⟩

/-! ## The position-found gate -/

theorem diag_variance_fst (P : List F) :
    (diag_variance P).1
      = ((List.range 7).map fun i => |P.getD (SURVIVE_MODEL_STATE_CNT * i + i) 0|).sum := by
  simp [diag_variance, SURVIVE_MODEL_STATE_CNT, List.range_succ]
  ring

theorem position_found_iff (tracker : SurviveKalmanTracker F) :
    survive_kalman_tracker_position_found tracker = true
      ↔ ((List.range 7).map fun i =>
          |tracker.model.P.getD (SURVIVE_MODEL_STATE_CNT * i + i) 0|).sum ≤ 0.1 := by
  unfold survive_kalman_tracker_position_found
  simp only [diag_variance_fst]
  by_cases h : ((List.range 7).map fun i =>
      |tracker.model.P.getD (SURVIVE_MODEL_STATE_CNT * i + i) 0|).sum > 0.1
  · rw [if_pos h]
    exact ⟨fun hf => absurd hf (by decide), fun hle => absurd hle (not_le.mpr h)⟩
  · rw [if_neg h]
    exact ⟨fun _ => not_lt.mp h, fun _ => rfl⟩

/-- C16: when `pos_variance`, the sum of `|P[i,i]|` over `i < 7`, is greater than
0.1, or the sample's base station has no position, `integrate_lightcap` returns
the tracker as it was (state, covariance, time, `lightcap_count`,
`lightcap_total_error` and everything else) and makes no call to the kernel or
to the pose consumer. -/
theorem integrate_light_refused (E : Env F) (tracker : SurviveKalmanTracker F)
    (data : PoserDataLight F)
    (h : 0.1 < ((List.range 7).map fun i =>
          |tracker.model.P.getD (SURVIVE_MODEL_STATE_CNT * i + i) 0|).sum
      ∨ (tracker.so.ctx.bsd data.lh).PositionSet = false) :
    survive_kalman_tracker_integrate_light E tracker data = (tracker, []) := by
  unfold survive_kalman_tracker_integrate_light
  by_cases hp : survive_kalman_tracker_position_found tracker = true
  · have hs : (tracker.so.ctx.bsd data.lh).PositionSet = false := by
      rcases h with h | h
      · exact absurd ((position_found_iff tracker).mp hp) (not_le.mpr h)
      · exact h
    simp [hp, hs]
  · simp [hp]

/-- C16, on the freshly initialized tracker, whose `pos_variance` is 7000, and
on a converged tracker whose base station 0 has no position. -/
theorem integrate_light_refused_witness :
    (0.1 < ((List.range 7).map fun i =>
          |fresh_tracker.model.P.getD (SURVIVE_MODEL_STATE_CNT * i + i) 0|).sum
        ∨ (fresh_tracker.so.ctx.bsd (light_sample 10).lh).PositionSet = false)
      ∧ survive_kalman_tracker_integrate_light sample_env fresh_tracker (light_sample 10)
        = (fresh_tracker, []) :=
  ⟨by decide!, integrate_light_refused sample_env fresh_tracker (light_sample 10) (by decide!)⟩

/-! ## Normalization after an update -/

theorem setRot_getD_other (x q : List F) (i : Nat) (hi : i ∉ [3, 4, 5, 6]) :
    (setRot x q).getD i 0 = x.getD i 0 := by
  simp only [List.mem_cons, List.mem_singleton, List.not_mem_nil, or_false, not_or] at hi
  obtain ⟨h3, h4, h5, h6⟩ := hi
  unfold setRot
  rw [getD_set_eq, if_neg (fun h => h6 h.1.symm), getD_set_eq, if_neg (fun h => h5 h.1.symm),
    getD_set_eq, if_neg (fun h => h4 h.1.symm), getD_set_eq, if_neg (fun h => h3 h.1.symm)]

theorem Rot_setRot (x q : List F) (hx : 7 ≤ x.length) :
    Rot (setRot x q) = [q.getD 0 0, q.getD 1 0, q.getD 2 0, q.getD 3 0] := by
  unfold Rot setRot
  simp only [getD_set_eq, List.length_set]
  have h3 : 3 < x.length := by omega
  have h4 : 4 < x.length := by omega
  have h5 : 5 < x.length := by omega
  have h6 : 6 < x.length := by omega
  simp [h3, h4, h5, h6]

theorem quat_norm_sq_Rot_setRot (x q : List F) (hx : 7 ≤ x.length) :
    quat_norm_sq (Rot (setRot x q)) = quat_norm_sq q := by
  rw [Rot_setRot x q hx]
  simp [quat_norm_sq]

theorem integrate_imu_state (E : Env F) (tracker : SurviveKalmanTracker F)
    (data : PoserDataIMU F) (h0 : tracker.model.t ≠ 0)
    (hl : ¬ (timecode_seconds tracker.so data.hdr - tracker.model.t < -0.01))
    (hu : (imu_use_gyro tracker || imu_use_accel tracker) = true) :
    (survive_kalman_tracker_integrate_imu E tracker data).1.model.state
      = setRot (imu_kernel_result E tracker data).state
          (E.quatnormalize (Rot (imu_kernel_result E tracker data).state)) := by
  unfold survive_kalman_tracker_integrate_imu
  simp only [if_neg h0, if_neg hl, hu, if_true, report_state_fst]
  rfl

theorem integrate_light_state (E : Env F) (tracker : SurviveKalmanTracker F)
    (data : PoserDataLight F) (hp : survive_kalman_tracker_position_found tracker = true)
    (hs : (tracker.so.ctx.bsd data.lh).PositionSet = true) (hv : tracker.light_var ≥ 0) :
    (survive_kalman_tracker_integrate_light E tracker data).1.model.state
      = setRot (light_kernel_result E tracker data).state
          (E.quatnormalize (Rot (light_kernel_result E tracker data).state)) := by
  unfold survive_kalman_tracker_integrate_light
  simp only [hp, hs, Bool.not_true, Bool.false_eq_true, if_false, if_pos hv, report_state_fst]
  rfl

/-- C17: when `integrate_imu` or `integrate_lightcap` passes its gates and runs
the kernel's predict+update, and the kernel leaves a state vector (at least 7
entries) with a non-zero quaternion on which `quatnormalize` meets its
contract, then on return the tracker's quaternion, state entries 3..6, has
norm 1, and every other state entry is what the kernel left. -/
theorem integrate_imu_light_normalized (E : Env F) (tracker : SurviveKalmanTracker F)
    (imu : PoserDataIMU F) (light : PoserDataLight F) :
    (tracker.model.t ≠ 0 →
      ¬ (timecode_seconds tracker.so imu.hdr - tracker.model.t < -0.01) →
      (imu_use_gyro tracker || imu_use_accel tracker) = true →
      7 ≤ (imu_kernel_result E tracker imu).state.length →
      quat_norm_sq (Rot (imu_kernel_result E tracker imu).state) ≠ 0 →
      quatnormalize_normalizes E (Rot (imu_kernel_result E tracker imu).state) →
        quat_norm_sq (Rot (survive_kalman_tracker_integrate_imu E tracker imu).1.model.state) = 1
          ∧ ∀ i, i ∉ [3, 4, 5, 6] →
            (survive_kalman_tracker_integrate_imu E tracker imu).1.model.state.getD i 0
              = (imu_kernel_result E tracker imu).state.getD i 0)
    ∧ (survive_kalman_tracker_position_found tracker = true →
      (tracker.so.ctx.bsd light.lh).PositionSet = true →
      tracker.light_var ≥ 0 →
      7 ≤ (light_kernel_result E tracker light).state.length →
      quat_norm_sq (Rot (light_kernel_result E tracker light).state) ≠ 0 →
      quatnormalize_normalizes E (Rot (light_kernel_result E tracker light).state) →
        quat_norm_sq
            (Rot (survive_kalman_tracker_integrate_light E tracker light).1.model.state) = 1
          ∧ ∀ i, i ∉ [3, 4, 5, 6] →
            (survive_kalman_tracker_integrate_light E tracker light).1.model.state.getD i 0
              = (light_kernel_result E tracker light).state.getD i 0) := by
  constructor
  · intro h0 hl hu hlen hnz hq
    rw [integrate_imu_state E tracker imu h0 hl hu]
    obtain ⟨_, _, _, hn⟩ := hq hnz
    exact ⟨by rw [quat_norm_sq_Rot_setRot _ _ hlen, hn],
      fun i hi => setRot_getD_other _ _ i hi⟩
  · intro hp hs hv hlen hnz hq
    rw [integrate_light_state E tracker light hp hs hv]
    obtain ⟨_, _, _, hn⟩ := hq hnz
    exact ⟨by rw [quat_norm_sq_Rot_setRot _ _ hlen, hn],
      fun i hi => setRot_getD_other _ _ i hi⟩

theorem sample_quatnormalize_3_4 :
    quatnormalize_normalizes sample_env [3, 4, 0, 0] :=
  fun _ => ⟨1 / 5, by decide!, by decide!, by decide!⟩

/-- C17, on a converged tracker at `t = 5.0` whose quaternion is `(3, 4, 0, 0)`,
with an IMU sample and a sweep sample stamped 5.001: the kernel leaves the
quaternion `(3, 4, 0, 0)` and both calls return with a quaternion of norm 1. -/
theorem integrate_imu_light_normalized_witness :
    ((converged_tracker 5 [3, 4, 0, 0]).model.t ≠ 0
      ∧ ¬ (timecode_seconds (converged_tracker 5 [3, 4, 0, 0]).so (imu_sample 5001).hdr
            - (converged_tracker 5 [3, 4, 0, 0]).model.t < -0.01)
      ∧ (imu_use_gyro (converged_tracker 5 [3, 4, 0, 0])
          || imu_use_accel (converged_tracker 5 [3, 4, 0, 0])) = true
      ∧ Rot (imu_kernel_result sample_env (converged_tracker 5 [3, 4, 0, 0])
          (imu_sample 5001)).state = [3, 4, 0, 0]
      ∧ quat_norm_sq (Rot (survive_kalman_tracker_integrate_imu sample_env
          (converged_tracker 5 [3, 4, 0, 0]) (imu_sample 5001)).1.model.state) = 1)
    ∧ (survive_kalman_tracker_position_found (converged_tracker 5 [3, 4, 0, 0]) = true
      ∧ ((converged_tracker 5 [3, 4, 0, 0]).so.ctx.bsd (light_sample 5001).lh).PositionSet = true
      ∧ (converged_tracker 5 [3, 4, 0, 0]).light_var ≥ 0
      ∧ Rot (light_kernel_result sample_env (converged_tracker 5 [3, 4, 0, 0])
          (light_sample 5001)).state = [3, 4, 0, 0]
      ∧ quat_norm_sq (Rot (survive_kalman_tracker_integrate_light sample_env
          (converged_tracker 5 [3, 4, 0, 0]) (light_sample 5001)).1.model.state) = 1) :=
  ⟨⟨by decide!, by decide!, by decide!, by decide!,
      ((integrate_imu_light_normalized sample_env (converged_tracker 5 [3, 4, 0, 0])
        (imu_sample 5001) (light_sample 5001)).1 (by decide!) (by decide!) (by decide!)
        (by decide!) (by decide!)
        (by
          have h : Rot (imu_kernel_result sample_env (converged_tracker 5 [3, 4, 0, 0])
              (imu_sample 5001)).state = [3, 4, 0, 0] := by decide!
          rw [h]
          exact sample_quatnormalize_3_4)).1⟩,
    ⟨by decide!, by decide!, by decide!, by decide!,
      ((integrate_imu_light_normalized sample_env (converged_tracker 5 [3, 4, 0, 0])
        (imu_sample 5001) (light_sample 5001)).2 (by decide!) (by decide!) (by decide!)
        (by decide!) (by decide!)
        (by
          have h : Rot (light_kernel_result sample_env (converged_tracker 5 [3, 4, 0, 0])
              (light_sample 5001)).state = [3, 4, 0, 0] := by decide!
          rw [h]
          exact sample_quatnormalize_3_4)).1⟩⟩

/-! ## Initialization -/

/-- C18: after `init`, given that the kernel's `state_init` leaves the state
buffer as it got it and the time at 0 and allocates the 19 x 19 covariance, the
state vector is all zero except the quaternion `(1, 0, 0, 0)`, the covariance
diagonal is 1000 at indices 0..6 and 1 at indices 16..18, the time cursor is 0
and all statistics are 0. -/
theorem init_state (E : Env F) (so : SurviveObject F)
    (hX : (E.survive_kalman_state_init SURVIVE_MODEL_STATE_CNT
        (List.replicate SURVIVE_MODEL_STATE_CNT 0)).state
      = List.replicate SURVIVE_MODEL_STATE_CNT 0)
    (ht : (E.survive_kalman_state_init SURVIVE_MODEL_STATE_CNT
        (List.replicate SURVIVE_MODEL_STATE_CNT 0)).t = 0)
    (hP : (E.survive_kalman_state_init SURVIVE_MODEL_STATE_CNT
        (List.replicate SURVIVE_MODEL_STATE_CNT 0)).P.length
      = SURVIVE_MODEL_STATE_CNT * SURVIVE_MODEL_STATE_CNT) :
    (survive_kalman_tracker_init E so).model.state
        = [0, 0, 0, 1, 0, 0, 0, 0, 0, 0, 0, 0, 0, 0, 0, 0, 0, 0, 0]
      ∧ (∀ i : Fin 19, (i : Nat) < 7 →
          (survive_kalman_tracker_init E so).model.P.getD (SURVIVE_MODEL_STATE_CNT * i + i) 0
            = 1000)
      ∧ (∀ i : Fin 19, 16 ≤ (i : Nat) →
          (survive_kalman_tracker_init E so).model.P.getD (SURVIVE_MODEL_STATE_CNT * i + i) 0
            = 1)
      ∧ (survive_kalman_tracker_init E so).model.t = 0
      ∧ (survive_kalman_tracker_init E so).stats.late_imu_dropped = 0
      ∧ (survive_kalman_tracker_init E so).stats.late_light_dropped = 0
      ∧ (survive_kalman_tracker_init E so).stats.obs_total_error = 0
      ∧ (survive_kalman_tracker_init E so).stats.obs_count = 0
      ∧ (survive_kalman_tracker_init E so).stats.lightcap_total_error = 0
      ∧ (survive_kalman_tracker_init E so).stats.lightcap_count = 0
      ∧ (survive_kalman_tracker_init E so).stats.imu_total_error = 0
      ∧ (survive_kalman_tracker_init E so).stats.imu_count = 0 := by
  have hP' : (E.survive_kalman_state_init 19 (List.replicate 19 0)).P.length = 361 := hP
  refine ⟨?_, ?_, ?_, ?_, rfl, rfl, rfl, rfl, rfl, rfl, rfl, rfl⟩
  · show ((E.survive_kalman_state_init SURVIVE_MODEL_STATE_CNT
        (List.replicate SURVIVE_MODEL_STATE_CNT 0)).state).set 3 1 = _
    rw [hX]
    rfl
  · intro i hi
    show List.getD (List.foldl _ (List.foldl _
      (E.survive_kalman_state_init 19 (List.replicate 19 0)).P _) _) _ 0 = _
    simp only [List.range_succ, List.range_zero, List.nil_append, List.cons_append,
      List.map_cons, List.map_nil, List.foldl_cons, List.foldl_nil, getD_set_eq,
      List.length_set, hP', SURVIVE_MODEL_STATE_CNT]
    have hi' := i.isLt
    interval_cases h : (i : Nat) <;> norm_num
  · intro i hi
    show List.getD (List.foldl _ (List.foldl _
      (E.survive_kalman_state_init 19 (List.replicate 19 0)).P _) _) _ 0 = _
    simp only [List.range_succ, List.range_zero, List.nil_append, List.cons_append,
      List.map_cons, List.map_nil, List.foldl_cons, List.foldl_nil, getD_set_eq,
      List.length_set, hP', SURVIVE_MODEL_STATE_CNT]
    have hi' := i.isLt
    interval_cases h : (i : Nat) <;> norm_num
  · exact ht

/-- C18, with the sample kernel and the sample device. -/
theorem init_state_witness :
    (sample_env.survive_kalman_state_init SURVIVE_MODEL_STATE_CNT
        (List.replicate SURVIVE_MODEL_STATE_CNT 0)).state
        = List.replicate SURVIVE_MODEL_STATE_CNT 0
      ∧ (sample_env.survive_kalman_state_init SURVIVE_MODEL_STATE_CNT
        (List.replicate SURVIVE_MODEL_STATE_CNT 0)).t = 0
      ∧ (sample_env.survive_kalman_state_init SURVIVE_MODEL_STATE_CNT
        (List.replicate SURVIVE_MODEL_STATE_CNT 0)).P.length
        = SURVIVE_MODEL_STATE_CNT * SURVIVE_MODEL_STATE_CNT
      ∧ (survive_kalman_tracker_init sample_env sample_so).model.state
        = [0, 0, 0, 1, 0, 0, 0, 0, 0, 0, 0, 0, 0, 0, 0, 0, 0, 0, 0]
      ∧ (survive_kalman_tracker_init sample_env sample_so).model.t = 0 :=
  ⟨rfl, rfl, List.length_replicate _ _,
    (init_state sample_env sample_so rfl rfl (List.length_replicate _ _)).1,
    (init_state sample_env sample_so rfl rfl (List.length_replicate _ _)).2.2.2.1⟩

/-! ## Prediction and reporting -/

theorem pose_reports_append {α : Type} (a b : List (Event α)) :
    pose_reports (a ++ b) = pose_reports a ++ pose_reports b := by
  induction a with
  | nil => rfl
  | cons e es ih => cases e <;> simp [pose_reports, ih]

theorem pose_reports_predict (E : Env F) (tracker : SurviveKalmanTracker F) (t : F)
    (out : List F) : pose_reports (survive_kalman_tracker_predict E tracker t out).2 = [] := by
  unfold survive_kalman_tracker_predict
  split <;> rfl

/-- C19: `survive_kalman_tracker_predict` reads the tracker and returns the pose
only; the one kernel entry point it calls is the pure prediction, never a
predict+update.  With `t = 0` it makes no call and returns `out` as it was.
With `t != 0`, when the kernel's prediction `k` of state entries 0..6 has a
non-zero quaternion on which `quatnormalize` meets its contract, the returned
position is `k[0..2]` and the returned quaternion is `k[3..6]` scaled by a
positive factor to norm 1. -/
theorem predict_spec (E : Env F) (tracker : SurviveKalmanTracker F) (t : F) (out : List F) :
    handed_times (survive_kalman_tracker_predict E tracker t out).2 = []
      ∧ (tracker.model.t = 0 → survive_kalman_tracker_predict E tracker t out = (out, []))
      ∧ (tracker.model.t ≠ 0 →
          7 ≤ (E.survive_kalman_predict_state t tracker.model 0 7 out).length →
          quat_norm_sq (Rot (E.survive_kalman_predict_state t tracker.model 0 7 out)) ≠ 0 →
          quatnormalize_normalizes E
            (Rot (E.survive_kalman_predict_state t tracker.model 0 7 out)) →
            (survive_kalman_tracker_predict E tracker t out).2 = [Event.predict_state t 0 7]
              ∧ (∀ i, i < 3 → (survive_kalman_tracker_predict E tracker t out).1.getD i 0
                  = (E.survive_kalman_predict_state t tracker.model 0 7 out).getD i 0)
              ∧ (∃ c : F, 0 < c ∧ Rot (survive_kalman_tracker_predict E tracker t out).1
                  = (Rot (E.survive_kalman_predict_state t tracker.model 0 7 out)).map
                      (fun a => a * c))
              ∧ quat_norm_sq (Rot (survive_kalman_tracker_predict E tracker t out).1) = 1) := by
  refine ⟨?_, ?_, ?_⟩
  · unfold survive_kalman_tracker_predict
    split <;> rfl
  · intro h0
    unfold survive_kalman_tracker_predict
    rw [if_pos h0]
  · intro h0 hlen hnz hq
    obtain ⟨c, hc, hmap, hn⟩ := hq hnz
    have hres : survive_kalman_tracker_predict E tracker t out
        = (setRot (E.survive_kalman_predict_state t tracker.model 0 7 out)
            (E.quatnormalize (Rot (E.survive_kalman_predict_state t tracker.model 0 7 out))),
          [Event.predict_state t 0 7]) := by
      unfold survive_kalman_tracker_predict
      rw [if_neg h0]
    rw [hres]
    refine ⟨rfl, ?_, ⟨c, hc, ?_⟩, ?_⟩
    · intro i hi
      exact setRot_getD_other _ _ i (by simp; omega)
    · show Rot (setRot _ _) = _
      rw [Rot_setRot _ _ hlen, hmap]
      simp [Rot]
    · show quat_norm_sq (Rot (setRot _ _)) = 1
      rw [quat_norm_sq_Rot_setRot _ _ hlen, hn]

/-- C19, on a converged tracker at `t = 5.0` whose quaternion is `(3, 4, 0, 0)`,
predicted to time 6.0: the returned pose is `((0,0,0), (3/5, 4/5, 0, 0))`. -/
theorem predict_spec_witness :
    (converged_tracker 5 [3, 4, 0, 0]).model.t ≠ 0
      ∧ Rot (sample_env.survive_kalman_predict_state 6 (converged_tracker 5 [3, 4, 0, 0]).model
          0 7 (List.replicate 7 0)) = [3, 4, 0, 0]
      ∧ (survive_kalman_tracker_predict sample_env (converged_tracker 5 [3, 4, 0, 0]) 6
          (List.replicate 7 0)).1 = [0, 0, 0, 3 / 5, 4 / 5, 0, 0]
      ∧ quat_norm_sq (Rot (survive_kalman_tracker_predict sample_env
          (converged_tracker 5 [3, 4, 0, 0]) 6 (List.replicate 7 0)).1) = 1 :=
  ⟨by decide!, by decide!, by decide!,
    ((predict_spec sample_env (converged_tracker 5 [3, 4, 0, 0]) 6 (List.replicate 7 0)).2.2
      (by decide!) (by decide!) (by decide!)
      (by
        have h : Rot (sample_env.survive_kalman_predict_state 6
            (converged_tracker 5 [3, 4, 0, 0]).model 0 7 (List.replicate 7 0))
            = [3, 4, 0, 0] := by decide!
        rw [h]
        exact sample_quatnormalize_3_4)).2.2.2⟩

theorem report_state_time_eq_max (pd : PoserData) (tracker : SurviveKalmanTracker F) :
    report_state_time pd tracker = max (timecode_seconds tracker.so pd) tracker.model.t := by
  unfold report_state_time
  simp only []
  by_cases h : timecode_seconds tracker.so pd < tracker.model.t
  · rw [if_pos h, max_eq_right h.le]
  · rw [if_neg h, max_eq_left (not_lt.mp h)]

/-- C20, counterexample: a converged tracker at `t = 5.0` (sum 0, so the
position is found) gets a header stamped 3.0, two seconds before `t`.  The
assertion of `report_state` fails, the call aborts, and no pair reaches the
pose consumer although the sum is at most 0.1. -/
theorem report_state_aborts_without_report :
    ((List.range 7).map fun i =>
          |(converged_tracker 5 [1, 0, 0, 0]).model.P.getD (SURVIVE_MODEL_STATE_CNT * i + i) 0|).sum
        ≤ 0.1
      ∧ timecode_seconds (converged_tracker 5 [1, 0, 0, 0]).so (obs_header 3000) = 3
      ∧ (survive_kalman_tracker_report_state sample_env (obs_header 3000)
          (converged_tracker 5 [1, 0, 0, 0])).2 = [Event.abort]
      ∧ pose_reports (survive_kalman_tracker_report_state sample_env (obs_header 3000)
          (converged_tracker 5 [1, 0, 0, 0])).2 = [] := by
  refine ⟨by decide!, by decide!, ?_, by decide!⟩
  rw [report_state_of_assertion_fails sample_env (obs_header 3000)
    (converged_tracker 5 [1, 0, 0, 0]) (by unfold report_state_assertion; decide!)]

/-- C20, amended: `report_state` returns the tracker as it was.  When its
assertion holds (the sample time is not before `t`, or less than 1 before it),
it asks `survive_kalman_tracker_predict` for the pose at the time
`max(sample time, t)`, and, when the sum of `|P[i,i]|` over `i < 7` is at most 0.1,
hands exactly one pair to the pose consumer, that predicted pose with the
velocity.  When the sum is greater than 0.1 it hands nothing.  When the
assertion fails the call aborts before it predicts and hands nothing. -/
theorem report_state_spec (E : Env F) (pd : PoserData) (tracker : SurviveKalmanTracker F) :
    (survive_kalman_tracker_report_state E pd tracker).1 = tracker
      ∧ report_state_time pd tracker
        = max (timecode_seconds tracker.so pd) tracker.model.t
      ∧ (report_state_assertion pd tracker →
          (∃ rest, (survive_kalman_tracker_report_state E pd tracker).2
            = (survive_kalman_tracker_predict E tracker
                (max (timecode_seconds tracker.so pd) tracker.model.t)
                (List.replicate 7 0)).2 ++ rest)
          ∧ (((List.range 7).map fun i =>
                |tracker.model.P.getD (SURVIVE_MODEL_STATE_CNT * i + i) 0|).sum ≤ 0.1 →
              pose_reports (survive_kalman_tracker_report_state E pd tracker).2
                = [((survive_kalman_tracker_predict E tracker
                      (max (timecode_seconds tracker.so pd) tracker.model.t)
                      (List.replicate 7 0)).1,
                    (survive_kalman_tracker_velocity E tracker).1)]))
      ∧ (0.1 < ((List.range 7).map fun i =>
            |tracker.model.P.getD (SURVIVE_MODEL_STATE_CNT * i + i) 0|).sum →
          pose_reports (survive_kalman_tracker_report_state E pd tracker).2 = [])
      ∧ (¬ report_state_assertion pd tracker →
          (survive_kalman_tracker_report_state E pd tracker).2 = [Event.abort]
            ∧ pose_reports (survive_kalman_tracker_report_state E pd tracker).2 = []) := by
  refine ⟨report_state_fst E pd tracker, report_state_time_eq_max pd tracker, ?_, ?_, ?_⟩
  · intro ha
    rw [report_state_of_assertion E pd tracker ha]
    simp only [report_state_time_eq_max]
    constructor
    · split
      · exact ⟨[], (List.append_nil _).symm⟩
      · exact ⟨_, List.append_assoc _ _ _⟩
    · intro h
      have hp := (position_found_iff tracker).mpr h
      simp only [hp, Bool.not_true, Bool.false_eq_true, if_false,
        pose_reports_append, pose_reports_predict, List.nil_append]
      simp [survive_kalman_tracker_velocity, pose_reports]
  · intro h
    have hp : survive_kalman_tracker_position_found tracker = false := by
      cases hb : survive_kalman_tracker_position_found tracker
      · rfl
      · exact absurd ((position_found_iff tracker).mp hb) (not_le.mpr h)
    by_cases ha : report_state_assertion pd tracker
    · rw [report_state_of_assertion E pd tracker ha]
      simp only [hp, Bool.not_false, if_true, pose_reports_predict]
    · rw [report_state_of_assertion_fails E pd tracker ha]
      rfl
  · intro ha
    rw [report_state_of_assertion_fails E pd tracker ha]
    exact ⟨rfl, rfl⟩

/-- C20 amended, on a converged tracker at `t = 5.0` (sum 0) with a header
stamped 5.001, where the assertion holds and one pair is reported, and on the
freshly initialized tracker (sum 7000), which reports none. -/
theorem report_state_spec_witness :
    (report_state_assertion (obs_header 5001) (converged_tracker 5 [1, 0, 0, 0])
      ∧ ((List.range 7).map fun i =>
          |(converged_tracker 5 [1, 0, 0, 0]).model.P.getD (SURVIVE_MODEL_STATE_CNT * i + i) 0|).sum
        ≤ 0.1
      ∧ pose_reports (survive_kalman_tracker_report_state sample_env (obs_header 5001)
          (converged_tracker 5 [1, 0, 0, 0])).2
        = [((survive_kalman_tracker_predict sample_env (converged_tracker 5 [1, 0, 0, 0])
              (max (timecode_seconds (converged_tracker 5 [1, 0, 0, 0]).so (obs_header 5001))
                (converged_tracker 5 [1, 0, 0, 0]).model.t)
              (List.replicate 7 0)).1,
            (survive_kalman_tracker_velocity sample_env (converged_tracker 5 [1, 0, 0, 0])).1)]
      ∧ pose_reports (survive_kalman_tracker_report_state sample_env (obs_header 5001)
          (converged_tracker 5 [1, 0, 0, 0])).2
        = [([0, 0, 0, 1, 0, 0, 0], [0, 0, 0, 0, 0, 0])])
      ∧ (0.1 < ((List.range 7).map fun i =>
          |fresh_tracker.model.P.getD (SURVIVE_MODEL_STATE_CNT * i + i) 0|).sum
        ∧ pose_reports (survive_kalman_tracker_report_state sample_env (obs_header 5001)
            fresh_tracker).2 = []) :=
  ⟨⟨by unfold report_state_assertion; decide!, by decide!,
      ((report_state_spec sample_env (obs_header 5001)
        (converged_tracker 5 [1, 0, 0, 0])).2.2.1
          (by unfold report_state_assertion; decide!)).2 (by decide!),
      by decide!⟩,
    ⟨by decide!,
      (report_state_spec sample_env (obs_header 5001) fresh_tracker).2.2.2.1 (by decide!)⟩⟩

/-! ## The lightcap measurement callback -/

theorem map_light_data_eq (E : Env F) (tracker : SurviveKalmanTracker F)
    (pdl : PoserDataLight F) (Z x_t y H_k : List F) :
    map_light_data E tracker pdl Z x_t y H_k
      = ((List.range 7).all
            (fun i => E.isfinite ((light_jacobian_row E tracker pdl x_t H_k).getD i 0)),
          y.set 0 (Z.getD 0 0 - light_h_x E tracker pdl x_t),
          light_jacobian_row E tracker pdl x_t H_k) := by
  unfold map_light_data light_jacobian_row light_h_x light_reproject_model
  simp only []
  by_cases hv : tracker.so.ctx.lh_version = 0
  · simp only [if_pos hv]
    split
    · rename_i h
      rw [h]
    · rename_i h
      rw [Bool.not_eq_true] at h
      rw [h]
  · simp only [if_neg hv]
    split
    · rename_i h
      rw [h]
    · rename_i h
      rw [Bool.not_eq_true] at h
      rw [h]

/-- C21: `map_light_data` returns false exactly when `isfinite` fails on one of
the first 7 entries of the Jacobian row that the reprojection table wrote.  In
every case, so whenever it returns true, the innovation written is
`y[0] = Z[0] - h_x` with `h_x` the projection of the sensor, and, when the
table's Jacobian function leaves the entries from 7 on as it found them,
entries 7.. of the row are zero. -/
theorem map_light_data_spec (E : Env F) (tracker : SurviveKalmanTracker F)
    (pdl : PoserDataLight F) (Z x_t y H_k : List F) :
    ((map_light_data E tracker pdl Z x_t y H_k).1 = false
        ↔ ∃ i, i < 7 ∧ E.isfinite ((light_jacobian_row E tracker pdl x_t H_k).getD i 0) = false)
      ∧ ((map_light_data E tracker pdl Z x_t y H_k).1 = true →
          (map_light_data E tracker pdl Z x_t y H_k).2.1
              = y.set 0 (Z.getD 0 0 - light_h_x E tracker pdl x_t)
            ∧ (map_light_data E tracker pdl Z x_t y H_k).2.2
              = light_jacobian_row E tracker pdl x_t H_k
            ∧ ((∀ i, 7 ≤ i → (light_jacobian_row E tracker pdl x_t H_k).getD i 0
                  = (H_k.map (fun _ => (0 : F))).getD i 0) →
                ∀ i, 7 ≤ i → (map_light_data E tracker pdl Z x_t y H_k).2.2.getD i 0 = 0)) := by
  rw [map_light_data_eq]
  constructor
  · simp only []
    constructor
    · intro h
      by_contra hne
      have hall : (List.range 7).all
          (fun i => E.isfinite ((light_jacobian_row E tracker pdl x_t H_k).getD i 0))
          = true := by
        rw [List.all_eq_true]
        intro i hi
        rw [List.mem_range] at hi
        cases hf : E.isfinite ((light_jacobian_row E tracker pdl x_t H_k).getD i 0)
        · exact absurd ⟨i, hi, hf⟩ hne
        · rfl
      rw [hall] at h
      exact absurd h (by decide)
    · rintro ⟨i, hi, hf⟩
      cases hall : (List.range 7).all
          (fun i => E.isfinite ((light_jacobian_row E tracker pdl x_t H_k).getD i 0))
      · rfl
      · rw [List.all_eq_true] at hall
        have := hall i (List.mem_range.mpr hi)
        rw [hf] at this
        exact absurd this (by decide)
  · intro _
    refine ⟨rfl, rfl, ?_⟩
    intro hframe i hi
    show (light_jacobian_row E tracker pdl x_t H_k).getD i 0 = 0
    rw [hframe i hi, List.getD_eq_getElem?_getD, List.getElem?_map]
    cases H_k[i]? <;> rfl

/-- C21, on the degenerate sample projection, whose Jacobian has a non-finite
first entry (the callback returns false), and on the regular one (it returns
true, the innovation is `Z - 0` and entries 7.. of the row are zero). -/
theorem map_light_data_spec_witness :
    ((∃ i, i < 7 ∧ degenerate_env.isfinite
          ((light_jacobian_row degenerate_env (converged_tracker 5 [1, 0, 0, 0])
            (light_sample 5001) (converged_tracker 5 [1, 0, 0, 0]).model.state
            (List.replicate 19 0)).getD i 0) = false)
      ∧ (map_light_data degenerate_env (converged_tracker 5 [1, 0, 0, 0]) (light_sample 5001)
          [1 / 2] (converged_tracker 5 [1, 0, 0, 0]).model.state [0]
          (List.replicate 19 0)).1 = false)
    ∧ ((map_light_data sample_env (converged_tracker 5 [1, 0, 0, 0]) (light_sample 5001)
          [1 / 2] (converged_tracker 5 [1, 0, 0, 0]).model.state [0]
          (List.replicate 19 0)).1 = true
      ∧ (map_light_data sample_env (converged_tracker 5 [1, 0, 0, 0]) (light_sample 5001)
          [1 / 2] (converged_tracker 5 [1, 0, 0, 0]).model.state [0]
          (List.replicate 19 0)).2.1 = [1 / 2]
      ∧ (map_light_data sample_env (converged_tracker 5 [1, 0, 0, 0]) (light_sample 5001)
          [1 / 2] (converged_tracker 5 [1, 0, 0, 0]).model.state [0]
          (List.replicate 19 0)).2.2.getD 7 0 = 0) :=
  ⟨⟨⟨0, by decide, by decide!⟩,
      (map_light_data_spec degenerate_env (converged_tracker 5 [1, 0, 0, 0]) (light_sample 5001)
        [1 / 2] (converged_tracker 5 [1, 0, 0, 0]).model.state [0]
        (List.replicate 19 0)).1.mpr ⟨0, by decide, by decide!⟩⟩,
    ⟨by decide!, by decide!,
      ((map_light_data_spec sample_env (converged_tracker 5 [1, 0, 0, 0]) (light_sample 5001)
        [1 / 2] (converged_tracker 5 [1, 0, 0, 0]).model.state [0]
        (List.replicate 19 0)).2 (by decide!)).2.2 (fun _ _ => rfl) 7 (le_refl 7)⟩⟩

/-! ## The assertion of `report_state` -/

theorem integrate_light_eq_report (E : Env F) (tracker : SurviveKalmanTracker F)
    (data : PoserDataLight F) (hp : survive_kalman_tracker_position_found tracker = true)
    (hs : (tracker.so.ctx.bsd data.lh).PositionSet = true) (hv : tracker.light_var ≥ 0) :
    survive_kalman_tracker_integrate_light E tracker data
      = ((survive_kalman_tracker_report_state E data.hdr
            (integrate_light_updated E tracker data)).1,
          Event.predict_update_state_extended (timecode_seconds tracker.so data.hdr)
            [data.angle] [tracker.light_var]
            :: (survive_kalman_tracker_report_state E data.hdr
              (integrate_light_updated E tracker data)).2) := by
  unfold survive_kalman_tracker_integrate_light integrate_light_updated
  simp only [hp, hs, Bool.not_true, Bool.false_eq_true, if_false, if_pos hv]
  rfl

/-- C22, evaluated: a converged tracker at `t = 5.0` receives a sweep sample
stamped 1.0.  It passes every gate of `integrate_light`; the measurement
callback rejects the sample (non-finite Jacobian), the kernel skips it and
leaves `t = 5.0`; `report_state` is then called with a sample time 4 seconds
before `t`, and its assertion `t - timestamp < 1` is false. -/
theorem integrate_light_report_assertion_fails :
    survive_kalman_tracker_position_found (converged_tracker 5 [1, 0, 0, 0]) = true
      ∧ ((converged_tracker 5 [1, 0, 0, 0]).so.ctx.bsd (light_sample 1000).lh).PositionSet = true
      ∧ (converged_tracker 5 [1, 0, 0, 0]).light_var ≥ 0
      ∧ timecode_seconds (converged_tracker 5 [1, 0, 0, 0]).so (light_sample 1000).hdr = 1
      ∧ (integrate_light_updated degenerate_env (converged_tracker 5 [1, 0, 0, 0])
          (light_sample 1000)).model.t = 5
      ∧ ¬ report_state_assertion (light_sample 1000).hdr
          (integrate_light_updated degenerate_env (converged_tracker 5 [1, 0, 0, 0])
            (light_sample 1000)) := by
  unfold report_state_assertion
  decide!

/-! ## The gate on a fresh tracker -/

theorem init_P_diag_pose (E : Env F) (so : SurviveObject F)
    (hP : (E.survive_kalman_state_init SURVIVE_MODEL_STATE_CNT
        (List.replicate SURVIVE_MODEL_STATE_CNT 0)).P.length
      = SURVIVE_MODEL_STATE_CNT * SURVIVE_MODEL_STATE_CNT) (i : Nat) (hi : i < 7) :
    (survive_kalman_tracker_init E so).model.P.getD (SURVIVE_MODEL_STATE_CNT * i + i) 0
      = 1000 := by
  have hP' : (E.survive_kalman_state_init 19 (List.replicate 19 0)).P.length = 361 := hP
  show List.getD (List.foldl _ (List.foldl _
    (E.survive_kalman_state_init 19 (List.replicate 19 0)).P _) _) _ 0 = _
  simp only [List.range_succ, List.range_zero, List.nil_append, List.cons_append,
    List.map_cons, List.map_nil, List.foldl_cons, List.foldl_nil, getD_set_eq,
    List.length_set, hP', SURVIVE_MODEL_STATE_CNT]
  interval_cases i <;> norm_num

theorem init_pos_variance (E : Env F) (so : SurviveObject F)
    (hP : (E.survive_kalman_state_init SURVIVE_MODEL_STATE_CNT
        (List.replicate SURVIVE_MODEL_STATE_CNT 0)).P.length
      = SURVIVE_MODEL_STATE_CNT * SURVIVE_MODEL_STATE_CNT) :
    ((List.range 7).map fun i =>
        |(survive_kalman_tracker_init E so).model.P.getD (SURVIVE_MODEL_STATE_CNT * i + i) 0|).sum
      = 7000 := by
  have h : ∀ i, i < 7 →
      |(survive_kalman_tracker_init E so).model.P.getD (SURVIVE_MODEL_STATE_CNT * i + i) 0|
        = 1000 := by
    intro i hi
    rw [init_P_diag_pose E so hP i hi]
    exact abs_of_nonneg (by norm_num)
  simp only [List.range_succ, List.range_zero, List.nil_append, List.cons_append,
    List.map_cons, List.map_nil, List.sum_cons, List.sum_nil]
  rw [h 0 (by decide), h 1 (by decide), h 2 (by decide), h 3 (by decide), h 4 (by decide),
    h 5 (by decide), h 6 (by decide)]
  norm_num

theorem gate_closed (E : Env F) (tracker : SurviveKalmanTracker F)
    (h : 0.1 < ((List.range 7).map fun i =>
        |tracker.model.P.getD (SURVIVE_MODEL_STATE_CNT * i + i) 0|).sum) :
    survive_kalman_tracker_position_found tracker = false
      ∧ (∀ light, survive_kalman_tracker_integrate_light E tracker light = (tracker, []))
      ∧ (∀ pd, pose_reports (survive_kalman_tracker_report_state E pd tracker).2 = []) := by
  have hp : survive_kalman_tracker_position_found tracker = false := by
    cases hb : survive_kalman_tracker_position_found tracker
    · rfl
    · exact absurd ((position_found_iff tracker).mp hb) (not_le.mpr h)
  refine ⟨hp, ?_, ?_⟩
  · intro light
    unfold survive_kalman_tracker_integrate_light
    simp [hp]
  · intro pd
    by_cases ha : report_state_assertion pd tracker
    · rw [report_state_of_assertion E pd tracker ha]
      simp only [hp, Bool.not_false, if_true, pose_reports_predict]
    · rw [report_state_of_assertion_fails E pd tracker ha]
      rfl

theorem normalize_model_P (E : Env F) (tracker : SurviveKalmanTracker F) :
    (normalize_model E tracker).model.P = tracker.model.P := rfl

theorem integrate_imu_P (E : Env F) (tracker : SurviveKalmanTracker F) (imu : PoserDataIMU F) :
    (survive_kalman_tracker_integrate_imu E tracker imu).1.model.P = tracker.model.P
      ∨ (survive_kalman_tracker_integrate_imu E tracker imu).1.model.P
        = (imu_kernel_result E tracker imu).P := by
  unfold survive_kalman_tracker_integrate_imu
  by_cases h0 : tracker.model.t = 0
  · left
    rw [if_pos h0]
  · by_cases hl : timecode_seconds tracker.so imu.hdr - tracker.model.t < -0.01
    · left
      rw [if_neg h0]
      simp only []
      rw [if_pos hl]
    · simp only [if_neg h0, if_neg hl, report_state_fst]
      by_cases hu : (imu_use_gyro tracker || imu_use_accel tracker) = true
      · right
        simp only [hu, if_true]
        rfl
      · left
        simp only [hu, Bool.false_eq_true, if_false]

theorem integrate_light_P (E : Env F) (tracker : SurviveKalmanTracker F)
    (light : PoserDataLight F) :
    (survive_kalman_tracker_integrate_light E tracker light).1.model.P = tracker.model.P
      ∨ (survive_kalman_tracker_integrate_light E tracker light).1.model.P
        = (light_kernel_result E tracker light).P := by
  by_cases hp : survive_kalman_tracker_position_found tracker = true
  · by_cases hs : (tracker.so.ctx.bsd light.lh).PositionSet = true
    · by_cases hv : tracker.light_var ≥ 0
      · right
        rw [integrate_light_eq_report E tracker light hp hs hv]
        simp only [report_state_fst]
        rfl
      · left
        unfold survive_kalman_tracker_integrate_light
        simp [hp, hs, hv]
    · left
      unfold survive_kalman_tracker_integrate_light
      simp [hp, hs]
  · left
    unfold survive_kalman_tracker_integrate_light
    simp [hp]

theorem integrate_observation_update_P (E : Env F) (pd : PoserData)
    (tracker : SurviveKalmanTracker F) (time : F) (pose : List F) :
    (integrate_observation_update E pd tracker time pose).1.model.P = tracker.model.P
      ∨ ∃ m time' R, (integrate_observation_update E pd tracker time pose).1.model.P
        = (E.survive_kalman_predict_update_state time' m (pose.take 7) pose_H R).1.P := by
  by_cases hv : tracker.obs_pos_var ≥ 0 ∧ tracker.obs_rot_var ≥ 0
  · right
    exact ⟨_, _, _, congrArg survive_kalman_state_t.P
      (integrate_observation_update_model E pd tracker time pose hv)⟩
  · left
    unfold integrate_observation_update
    rw [if_neg hv]

theorem integrate_observation_P (E : Env F) (pd : PoserData)
    (tracker : SurviveKalmanTracker F) (pose : List F) (R : Option (List F)) :
    (survive_kalman_tracker_integrate_observation E pd tracker pose R).1.model.P
        = tracker.model.P
      ∨ ∃ m time' R', (survive_kalman_tracker_integrate_observation E pd tracker pose R).1.model.P
        = (E.survive_kalman_predict_update_state time' m (pose.take 7) pose_H R').1.P := by
  have key : ∀ tr : SurviveKalmanTracker F, tr.model.P = tracker.model.P →
      ((if timecode_seconds tracker.so pd - tr.model.t < 0 then
          if timecode_seconds tracker.so pd - tr.model.t > -0.1 then
            integrate_observation_update E pd tr (timecode_seconds tracker.so pd) pose
          else
            ({ tr with
                stats := { tr.stats with
                  late_light_dropped := tr.stats.late_light_dropped + 1 } }, [])
        else
          integrate_observation_update E pd tr (timecode_seconds tracker.so pd) pose).1.model.P
          = tracker.model.P
        ∨ ∃ m time' R',
          (if timecode_seconds tracker.so pd - tr.model.t < 0 then
            if timecode_seconds tracker.so pd - tr.model.t > -0.1 then
              integrate_observation_update E pd tr (timecode_seconds tracker.so pd) pose
            else
              ({ tr with
                  stats := { tr.stats with
                    late_light_dropped := tr.stats.late_light_dropped + 1 } }, [])
          else
            integrate_observation_update E pd tr (timecode_seconds tracker.so pd)
              pose).1.model.P
            = (E.survive_kalman_predict_update_state time' m (pose.take 7) pose_H R').1.P) := by
    intro tr htr
    have hupd := integrate_observation_update_P E pd tr (timecode_seconds tracker.so pd) pose
    rw [htr] at hupd
    by_cases h1 : timecode_seconds tracker.so pd - tr.model.t < 0
    · by_cases h2 : timecode_seconds tracker.so pd - tr.model.t > -0.1
      · rw [if_pos h1, if_pos h2]
        exact hupd
      · rw [if_pos h1, if_neg h2]
        exact Or.inl htr
    · rw [if_neg h1]
      exact hupd
  unfold survive_kalman_tracker_integrate_observation
  by_cases h0 : tracker.model.t = 0
  · simp only [if_pos h0]
    exact key { tracker with model := { tracker.model with t := timecode_seconds tracker.so pd } }
      rfl
  · simp only [if_neg h0]
    exact key tracker rfl

/-- C24: after `init` (the kernel's `state_init` having allocated the 19 x 19
covariance) the sum of `|P[i,i]|` over `i < 7` is 7000, so the position-found gate
is false, every `integrate_lightcap` call returns the tracker as it was without
any call, and every `report_state` call hands nothing to the pose consumer.  The
same holds for every tracker whose sum is above 0.1, and the covariance a
tracker holds after an `integrate_*` call is either the one it held before or
the one returned by the kernel's predict+update in that call. -/
theorem fresh_tracker_gate_closed (E : Env F) (so : SurviveObject F)
    (hP : (E.survive_kalman_state_init SURVIVE_MODEL_STATE_CNT
        (List.replicate SURVIVE_MODEL_STATE_CNT 0)).P.length
      = SURVIVE_MODEL_STATE_CNT * SURVIVE_MODEL_STATE_CNT) :
    ((List.range 7).map fun i =>
        |(survive_kalman_tracker_init E so).model.P.getD (SURVIVE_MODEL_STATE_CNT * i + i) 0|).sum
        = 7000
      ∧ survive_kalman_tracker_position_found (survive_kalman_tracker_init E so) = false
      ∧ (∀ light, survive_kalman_tracker_integrate_light E (survive_kalman_tracker_init E so)
          light = (survive_kalman_tracker_init E so, []))
      ∧ (∀ pd, pose_reports (survive_kalman_tracker_report_state E pd
          (survive_kalman_tracker_init E so)).2 = [])
      ∧ (∀ tracker : SurviveKalmanTracker F,
          0.1 < ((List.range 7).map fun i =>
            |tracker.model.P.getD (SURVIVE_MODEL_STATE_CNT * i + i) 0|).sum →
          survive_kalman_tracker_position_found tracker = false
            ∧ (∀ light, survive_kalman_tracker_integrate_light E tracker light = (tracker, []))
            ∧ (∀ pd, pose_reports (survive_kalman_tracker_report_state E pd tracker).2 = []))
      ∧ (∀ (tracker : SurviveKalmanTracker F) (imu : PoserDataIMU F),
          (survive_kalman_tracker_integrate_imu E tracker imu).1.model.P = tracker.model.P
            ∨ (survive_kalman_tracker_integrate_imu E tracker imu).1.model.P
              = (imu_kernel_result E tracker imu).P)
      ∧ (∀ (tracker : SurviveKalmanTracker F) (light : PoserDataLight F),
          (survive_kalman_tracker_integrate_light E tracker light).1.model.P = tracker.model.P
            ∨ (survive_kalman_tracker_integrate_light E tracker light).1.model.P
              = (light_kernel_result E tracker light).P)
      ∧ (∀ (tracker : SurviveKalmanTracker F) (pd : PoserData) (pose : List F)
          (R : Option (List F)),
          (survive_kalman_tracker_integrate_observation E pd tracker pose R).1.model.P
              = tracker.model.P
            ∨ ∃ m time R',
              (survive_kalman_tracker_integrate_observation E pd tracker pose R).1.model.P
                = (E.survive_kalman_predict_update_state time m (pose.take 7) pose_H R').1.P) := by
  have hsum := init_pos_variance E so hP
  have hgt : 0.1 < ((List.range 7).map fun i =>
      |(survive_kalman_tracker_init E so).model.P.getD
        (SURVIVE_MODEL_STATE_CNT * i + i) 0|).sum := by
    rw [hsum]
    norm_num
  obtain ⟨h1, h2, h3⟩ := gate_closed E (survive_kalman_tracker_init E so) hgt
  exact ⟨hsum, h1, h2, h3, fun tracker h => gate_closed E tracker h,
    fun tracker imu => integrate_imu_P E tracker imu,
    fun tracker light => integrate_light_P E tracker light,
    fun tracker pd pose R => integrate_observation_P E pd tracker pose R⟩

/-- C24, with the sample kernel and the sample device: the sum is 7000 and a
sweep sample and a report leave the fresh tracker silent. -/
theorem fresh_tracker_gate_closed_witness :
    (sample_env.survive_kalman_state_init SURVIVE_MODEL_STATE_CNT
        (List.replicate SURVIVE_MODEL_STATE_CNT 0)).P.length
        = SURVIVE_MODEL_STATE_CNT * SURVIVE_MODEL_STATE_CNT
      ∧ ((List.range 7).map fun i =>
          |(survive_kalman_tracker_init sample_env sample_so).model.P.getD
            (SURVIVE_MODEL_STATE_CNT * i + i) 0|).sum = 7000
      ∧ survive_kalman_tracker_integrate_light sample_env
          (survive_kalman_tracker_init sample_env sample_so) (light_sample 10)
        = (survive_kalman_tracker_init sample_env sample_so, [])
      ∧ pose_reports (survive_kalman_tracker_report_state sample_env (obs_header 10)
          (survive_kalman_tracker_init sample_env sample_so)).2 = [] :=
  ⟨List.length_replicate _ _,
    (fresh_tracker_gate_closed sample_env sample_so (List.length_replicate _ _)).1,
    (fresh_tracker_gate_closed sample_env sample_so (List.length_replicate _ _)).2.2.1
      (light_sample 10),
    (fresh_tracker_gate_closed sample_env sample_so (List.length_replicate _ _)).2.2.2.1
      (obs_header 10)⟩

/-! ## Positive semi-definiteness of the process noise -/

set_option maxRecDepth 1000000 in
set_option maxHeartbeats 20000000 in
theorem quad_form_model_q_fn (tracker : SurviveKalmanTracker F) (t : F) (x v : List F) :
    quad_form (model_q_fn tracker t x) v
      = tracker.process_weight_acc * t
          * ((v.getD 13 0 + v.getD 7 0 * t / 2 + v.getD 0 0 * t ^ 2 / 6) ^ 2
              + t ^ 2 / 12 * (v.getD 7 0 + v.getD 0 0 * t / 2) ^ 2
              + t ^ 4 / 720 * v.getD 0 0 ^ 2
            + ((v.getD 14 0 + v.getD 8 0 * t / 2 + v.getD 1 0 * t ^ 2 / 6) ^ 2
              + t ^ 2 / 12 * (v.getD 8 0 + v.getD 1 0 * t / 2) ^ 2
              + t ^ 4 / 720 * v.getD 1 0 ^ 2)
            + ((v.getD 15 0 + v.getD 9 0 * t / 2 + v.getD 2 0 * t ^ 2 / 6) ^ 2
              + t ^ 2 / 12 * (v.getD 9 0 + v.getD 2 0 * t / 2) ^ 2
              + t ^ 4 / 720 * v.getD 2 0 ^ 2))
        + tracker.process_weight_vel * t
          * ((v.getD 7 0 + v.getD 0 0 * t / 2) ^ 2 + t ^ 2 / 12 * v.getD 0 0 ^ 2
            + ((v.getD 8 0 + v.getD 1 0 * t / 2) ^ 2 + t ^ 2 / 12 * v.getD 1 0 ^ 2)
            + ((v.getD 9 0 + v.getD 2 0 * t / 2) ^ 2 + t ^ 2 / 12 * v.getD 2 0 ^ 2))
        + tracker.process_weight_pos * t
          * (v.getD 0 0 ^ 2 + v.getD 1 0 ^ 2 + v.getD 2 0 ^ 2)
        + tracker.process_weight_rotation * t
          * (v.getD 3 0 ^ 2 + v.getD 4 0 ^ 2 + v.getD 5 0 ^ 2 + v.getD 6 0 ^ 2)
        + tracker.process_weight_ang_velocity * t
          * ((v.getD 10 0 + t / 4 * (-x.getD 4 0 * v.getD 3 0 + x.getD 3 0 * v.getD 4 0
                + x.getD 6 0 * v.getD 5 0 - x.getD 5 0 * v.getD 6 0)) ^ 2
              + t ^ 2 / 48 * (-x.getD 4 0 * v.getD 3 0 + x.getD 3 0 * v.getD 4 0
                + x.getD 6 0 * v.getD 5 0 - x.getD 5 0 * v.getD 6 0) ^ 2
            + ((v.getD 11 0 + t / 4 * (-x.getD 5 0 * v.getD 3 0 - x.getD 6 0 * v.getD 4 0
                + x.getD 3 0 * v.getD 5 0 + x.getD 4 0 * v.getD 6 0)) ^ 2
              + t ^ 2 / 48 * (-x.getD 5 0 * v.getD 3 0 - x.getD 6 0 * v.getD 4 0
                + x.getD 3 0 * v.getD 5 0 + x.getD 4 0 * v.getD 6 0) ^ 2)
            + ((v.getD 12 0 + t / 4 * (-x.getD 6 0 * v.getD 3 0 + x.getD 5 0 * v.getD 4 0
                - x.getD 4 0 * v.getD 5 0 + x.getD 3 0 * v.getD 6 0)) ^ 2
              + t ^ 2 / 48 * (-x.getD 6 0 * v.getD 3 0 + x.getD 5 0 * v.getD 4 0
                - x.getD 4 0 * v.getD 5 0 + x.getD 3 0 * v.getD 6 0) ^ 2))
        + 1e-10 * t * (v.getD 16 0 ^ 2 + v.getD 17 0 ^ 2 + v.getD 18 0 ^ 2) := by
  simp only [quad_form, entry, model_q_fn, SURVIVE_MODEL_STATE_CNT, Rot, List.range_succ,
    List.range_zero, List.nil_append, List.cons_append, List.map_cons, List.map_nil,
    List.sum_cons, List.sum_nil, List.getD_cons_succ, List.getD_cons_zero, Nat.reduceMul,
    Nat.reduceAdd]
  ring

set_option maxRecDepth 100000 in
theorem model_q_fn_length (tracker : SurviveKalmanTracker F) (t : F) (x : List F) :
    (model_q_fn tracker t x).length = 361 := rfl

theorem entry_mat_add (P Q : List F) (i j : Nat) (hi : i < 19) (hj : j < 19)
    (hP : 361 ≤ P.length) (hQ : 361 ≤ Q.length) :
    entry (mat_add P Q) i j = entry P i j + entry Q i j := by
  unfold entry mat_add SURVIVE_MODEL_STATE_CNT
  have hk : j + i * 19 < 361 := by omega
  have h1 : j + i * 19 < P.length := by omega
  have h2 : j + i * 19 < Q.length := by omega
  have h3 : j + i * 19 < (List.zipWith (fun a b => a + b) P Q).length := by
    rw [List.length_zipWith]
    exact lt_min h1 h2
  rw [List.getD_eq_getElem _ _ h3, List.getD_eq_getElem _ _ h1, List.getD_eq_getElem _ _ h2,
    List.getElem_zipWith]

theorem quad_form_mat_add (P Q v : List F) (hP : 361 ≤ P.length) (hQ : 361 ≤ Q.length) :
    quad_form (mat_add P Q) v = quad_form P v + quad_form Q v := by
  unfold quad_form
  rw [← List.sum_map_add]
  congr 1
  apply List.map_congr_left
  intro i hi
  rw [← List.sum_map_add]
  congr 1
  apply List.map_congr_left
  intro j hj
  rw [List.mem_range] at hi hj
  rw [entry_mat_add P Q i j hi hj hP hQ]
  ring

set_option maxRecDepth 100000 in
theorem model_q_fn_diag_nonneg (tracker : SurviveKalmanTracker F) (t : F) (x : List F)
    (ht : 0 ≤ t) (hacc : 0 ≤ tracker.process_weight_acc) (hvel : 0 ≤ tracker.process_weight_vel)
    (hpos : 0 ≤ tracker.process_weight_pos)
    (hang : 0 ≤ tracker.process_weight_ang_velocity)
    (hrot : 0 ≤ tracker.process_weight_rotation) (i : Fin 19) :
    0 ≤ entry (model_q_fn tracker t x) i i := by
  have h3 : x.getD 3 0 * x.getD 3 0 + x.getD 4 0 * x.getD 4 0 + x.getD 5 0 * x.getD 5 0
      + x.getD 6 0 * x.getD 6 0 - x.getD 3 0 * x.getD 3 0
      = x.getD 4 0 * x.getD 4 0 + x.getD 5 0 * x.getD 5 0 + x.getD 6 0 * x.getD 6 0 := by ring
  have h4 : x.getD 3 0 * x.getD 3 0 + x.getD 4 0 * x.getD 4 0 + x.getD 5 0 * x.getD 5 0
      + x.getD 6 0 * x.getD 6 0 - x.getD 4 0 * x.getD 4 0
      = x.getD 3 0 * x.getD 3 0 + x.getD 5 0 * x.getD 5 0 + x.getD 6 0 * x.getD 6 0 := by ring
  have h5 : x.getD 3 0 * x.getD 3 0 + x.getD 4 0 * x.getD 4 0 + x.getD 5 0 * x.getD 5 0
      + x.getD 6 0 * x.getD 6 0 - x.getD 5 0 * x.getD 5 0
      = x.getD 3 0 * x.getD 3 0 + x.getD 4 0 * x.getD 4 0 + x.getD 6 0 * x.getD 6 0 := by ring
  have h6 : x.getD 3 0 * x.getD 3 0 + x.getD 4 0 * x.getD 4 0 + x.getD 5 0 * x.getD 5 0
      + x.getD 6 0 * x.getD 6 0 - x.getD 6 0 * x.getD 6 0
      = x.getD 3 0 * x.getD 3 0 + x.getD 4 0 * x.getD 4 0 + x.getD 5 0 * x.getD 5 0 := by ring
  fin_cases i <;>
  · simp only [entry, model_q_fn, SURVIVE_MODEL_STATE_CNT, Rot, List.getD_cons_succ,
      List.getD_cons_zero, Nat.reduceMul, Nat.reduceAdd, Fin.zero_eta, Fin.mk_one,
      Fin.reduceFinMk, Fin.val_zero, Fin.val_one, Fin.val_two, Fin.isValue, h3, h4, h5, h6]
    first
    | positivity
    | exact add_nonneg (mul_nonneg hrot ht)
        (mul_nonneg
          (mul_nonneg (div_nonneg hang (by norm_num)) (mul_nonneg (mul_nonneg ht ht) ht))
          (by linarith [mul_self_nonneg (x.getD 3 0), mul_self_nonneg (x.getD 4 0),
            mul_self_nonneg (x.getD 5 0), mul_self_nonneg (x.getD 6 0)]))

/-- C23: for a time step `t ≥ 0`, any state `x` (any quaternion) and
non-negative process weights, the matrix `Q` written by `model_q_fn` is
positive semi-definite over every ordered field, in particular over the reals:
`v^T Q v ≥ 0` for every vector `v`; every diagonal entry of `Q` is
non-negative; and for a 19 x 19 array `P` with `v^T P v ≥ 0` for all `v`, the sum
`P + Q` has `v^T (P + Q) v ≥ 0` for all `v`. -/
theorem model_q_fn_positive_semidefinite (tracker : SurviveKalmanTracker F) (t : F)
    (x : List F) (ht : 0 ≤ t) (hacc : 0 ≤ tracker.process_weight_acc)
    (hvel : 0 ≤ tracker.process_weight_vel) (hpos : 0 ≤ tracker.process_weight_pos)
    (hang : 0 ≤ tracker.process_weight_ang_velocity)
    (hrot : 0 ≤ tracker.process_weight_rotation) :
    (∀ v : List F, 0 ≤ quad_form (model_q_fn tracker t x) v)
      ∧ (∀ i : Fin 19, 0 ≤ entry (model_q_fn tracker t x) i i)
      ∧ (∀ P : List F,
          SURVIVE_MODEL_STATE_CNT * SURVIVE_MODEL_STATE_CNT ≤ P.length →
          (∀ v : List F, 0 ≤ quad_form P v) →
          ∀ v : List F, 0 ≤ quad_form (mat_add P (model_q_fn tracker t x)) v) := by
  have hq : ∀ v : List F, 0 ≤ quad_form (model_q_fn tracker t x) v := by
    intro v
    rw [quad_form_model_q_fn]
    positivity
  refine ⟨hq, model_q_fn_diag_nonneg tracker t x ht hacc hvel hpos hang hrot, ?_⟩
  intro P hP hPv v
  rw [quad_form_mat_add P _ v hP (le_of_eq (model_q_fn_length tracker t x).symm)]
  exact add_nonneg (hPv v) (hq v)

/-- C23, for the default weights (10, 0, 0, 1, 0) of the freshly initialized
tracker, a time step of 0.01 and a vector with entries of both signs. -/
theorem model_q_fn_positive_semidefinite_witness :
    ((0 : ℚ) ≤ 1 / 100 ∧ 0 ≤ fresh_tracker.process_weight_acc
        ∧ 0 ≤ fresh_tracker.process_weight_vel ∧ 0 ≤ fresh_tracker.process_weight_pos
        ∧ 0 ≤ fresh_tracker.process_weight_ang_velocity
        ∧ 0 ≤ fresh_tracker.process_weight_rotation)
      ∧ 0 ≤ quad_form (model_q_fn fresh_tracker (1 / 100) fresh_tracker.model.state)
          [1, -2, 3, -4, 5, -6, 7, -8, 9, -10, 11, -12, 13, -14, 15, -16, 17, -18, 19] :=
  ⟨⟨by decide!, by decide!, by decide!, by decide!, by decide!, by decide!⟩,
    (model_q_fn_positive_semidefinite fresh_tracker (1 / 100) fresh_tracker.model.state
      (by decide!) (by decide!) (by decide!) (by decide!) (by decide!) (by decide!)).1
      [1, -2, 3, -4, 5, -6, 7, -8, 9, -10, 11, -12, 13, -14, 15, -16, 17, -18, 19]⟩

end Survive
